import Mathlib

/-!
Verification development for the `evento` event-analysis engine
(`src/evento/event_alert.py`, with callers in `src/evento/app_server.py`).

The Python class `EventManager` is shallowly embedded here:
  * detection rows (`np_boxes` rows `[class, score, xmin, ymin, xmax, ymax]`)
    become the `Box` structure over `ℚ` (idealised float arithmetic);
  * the ROI configuration dict (`contourROI`, parsed from the per-event JSON
    written by `ui_server.py`) becomes an insertion-ordered association list
    `List (String × List IPoint)`;
  * the mutable object state becomes the `EMState` structure;
  * each classification method (`findEventStat`, `alertStrangerIntrusion`,
    `monitorVehicle`) becomes a function returning a `MethodOutcome`: the
    value the call returns (or the Python exception it raises, as
    `Except String`) together with the object state after the call;
  * `cv2.pointPolygonTest(cnt, pt, False)` on integer points is translated
    from OpenCV's integer branch in `modules/imgproc/src/geometry.cpp`;
  * `cv2.moments(cnt)` on a contour is translated from OpenCV's
    `contourMoments` (Green's formula, moments zeroed when the signed area
    is zero, sign-normalised otherwise).
-/

attribute [local semireducible] Rat.add Rat.mul Rat.inv Rat.sub

abbrev IPoint : Type := ℤ × ℤ

abbrev Color : Type := ℤ × ℤ × ℤ

/-- A detection row of `np_boxes`: `[class, score, x_min, y_min, x_max, y_max]`. -/
structure Box where
  cls : ℚ
  score : ℚ
  xmin : ℚ
  ymin : ℚ
  xmax : ℚ
  ymax : ℚ
deriving DecidableEq, Repr

/-- Python `int(...)` applied to a (real-valued) float: truncation toward zero. -/
def pyInt (q : ℚ) : ℤ :=
  if q.num < 0 then -((q.num.natAbs / q.den : ℕ) : ℤ) else ((q.num.natAbs / q.den : ℕ) : ℤ)

/-- One edge step of OpenCV `pointPolygonTest` (integer branch, `measureDist=False`):
`none` means the tested point lies on the boundary (the C code returns `0` there),
`some b` tells whether the crossing counter is incremented. -/
def pptEdge (ip v0 v : IPoint) : Option Bool :=
  if (v0.2 ≤ ip.2 ∧ v.2 ≤ ip.2) ∨ (v0.2 > ip.2 ∧ v.2 > ip.2) ∨ (v0.1 < ip.1 ∧ v.1 < ip.1) then
    if ip.2 = v.2 ∧ (ip.1 = v.1 ∨ (ip.2 = v0.2 ∧
        ((v0.1 ≤ ip.1 ∧ ip.1 ≤ v.1) ∨ (v.1 ≤ ip.1 ∧ ip.1 ≤ v0.1)))) then
      none
    else some false
  else
    let dist := (ip.2 - v0.2) * (v.1 - v0.1) - (ip.1 - v0.1) * (v.2 - v0.2)
    if dist = 0 then none
    else some (0 < (if v.2 < v0.2 then -dist else dist))

/-- The edge loop of OpenCV `pointPolygonTest`: previous vertex and crossing
counter are threaded; `none` is the early `return 0` for a boundary point. -/
def pptRun (ip : IPoint) : IPoint → List IPoint → ℕ → Option ℕ
  | _, [], counter => some counter
  | v0, v :: rest, counter =>
    match pptEdge ip v0 v with
    | none => none
    | some b => pptRun ip v rest (counter + if b then 1 else 0)

/-- `cv2.pointPolygonTest(cnt, ip, False)` for an integer contour and integer
point: `1` inside, `0` on the boundary, `-1` outside (`-1` for an empty contour). -/
def pointPolygonTest (cnt : List IPoint) (ip : IPoint) : ℤ :=
  match cnt.getLast? with
  | none => -1
  | some vstart =>
    match pptRun ip vstart cnt 0 with
    | none => 0
    | some counter => if counter % 2 = 0 then -1 else 1

/-- Exact-arithmetic edge step on rational points: the same crossing/boundary
test as `pptEdge`, used to state the spec's notion of the (untruncated)
bounding-box center lying strictly inside or exactly on the polygon boundary. -/
def pptEdgeQ (ip v0 v : ℚ × ℚ) : Option Bool :=
  if (v0.2 ≤ ip.2 ∧ v.2 ≤ ip.2) ∨ (v0.2 > ip.2 ∧ v.2 > ip.2) ∨ (v0.1 < ip.1 ∧ v.1 < ip.1) then
    if ip.2 = v.2 ∧ (ip.1 = v.1 ∨ (ip.2 = v0.2 ∧
        ((v0.1 ≤ ip.1 ∧ ip.1 ≤ v.1) ∨ (v.1 ≤ ip.1 ∧ ip.1 ≤ v0.1)))) then
      none
    else some false
  else
    let dist := (ip.2 - v0.2) * (v.1 - v0.1) - (ip.1 - v0.1) * (v.2 - v0.2)
    if dist = 0 then none
    else some (0 < (if v.2 < v0.2 then -dist else dist))

/-- Exact-arithmetic edge loop on rational points, mirroring `pptRun`. -/
def pptRunQ (ip : ℚ × ℚ) : ℚ × ℚ → List (ℚ × ℚ) → ℕ → Option ℕ
  | _, [], counter => some counter
  | v0, v :: rest, counter =>
    match pptEdgeQ ip v0 v with
    | none => none
    | some b => pptRunQ ip v rest (counter + if b then 1 else 0)

/-- Exact point-in-polygon classification of a rational point against an integer
polygon: `1` strictly inside, `0` exactly on the boundary, `-1` outside. -/
def pointPolygonTestQ (cnt : List IPoint) (ip : ℚ × ℚ) : ℤ :=
  match cnt.getLast? with
  | none => -1
  | some vstart =>
    match pptRunQ ip ((vstart.1 : ℚ), (vstart.2 : ℚ))
        (cnt.map (fun p => ((p.1 : ℚ), (p.2 : ℚ)))) 0 with
    | none => 0
    | some counter => if counter % 2 = 0 then -1 else 1

/-- The exact bounding-box center of a detection:
`(xmin + (xmax - xmin)/2, ymin + (ymax - ymin)/2)` (lines 185-186). -/
def boxCenter (b : Box) : ℚ × ℚ :=
  (b.xmin + (b.xmax - b.xmin) / 2, b.ymin + (b.ymax - b.ymin) / 2)

/-- The point actually handed to `cv2.pointPolygonTest` at line 188:
the bounding-box center with each coordinate truncated by Python `int(...)`. -/
def boxCenterInt (b : Box) : IPoint :=
  (pyInt (boxCenter b).1, pyInt (boxCenter b).2)

/-- Lines 188-191: the detection is counted for the region when
`cv2.pointPolygonTest` on the truncated center returns `1` or `0`. -/
def boxInside (pts : List IPoint) (b : Box) : Bool :=
  pointPolygonTest pts (boxCenterInt b) = 1 || pointPolygonTest pts (boxCenterInt b) = 0

/-- The spec's matching notion, from the spec's words: the detection's
(untruncated) bounding-box center lies strictly inside or exactly on the
region polygon boundary. -/
def specCenterInside (pts : List IPoint) (b : Box) : Bool :=
  pointPolygonTestQ pts (boxCenter b) = 1 || pointPolygonTestQ pts (boxCenter b) = 0

/-- The accumulation loop of OpenCV `contourMoments`: Green's formula over
the closed polyline, yielding the raw accumulators `(a00, a10, a01)`. -/
def contourAcc (pstart : IPoint) (pts : List IPoint) : ℤ × ℤ × ℤ :=
  (pts.foldl
    (fun (acc : IPoint × ℤ × ℤ × ℤ) (p : IPoint) =>
      (p, acc.2.1 + (acc.1.1 * p.2 - p.1 * acc.1.2),
       acc.2.2.1 + (acc.1.1 * p.2 - p.1 * acc.1.2) * (acc.1.1 + p.1),
       acc.2.2.2 + (acc.1.1 * p.2 - p.1 * acc.1.2) * (acc.1.2 + p.2)))
    (pstart, 0, 0, 0)).2

/-- The final normalisation of OpenCV `contourMoments`: all moments stay zero
when the accumulated signed area is zero, and are sign-normalised to a
positive `m00` otherwise. -/
def momentsOfAcc (a : ℤ × ℤ × ℤ) : ℚ × ℚ × ℚ :=
  if a.1 = 0 then (0, 0, 0)
  else if 0 < a.1 then ((a.1 : ℚ) / 2, (a.2.1 : ℚ) / 6, (a.2.2 : ℚ) / 6)
  else (-((a.1 : ℚ) / 2), -((a.2.1 : ℚ) / 6), -((a.2.2 : ℚ) / 6))

/-- `cv2.moments(cnt)` on a contour, restricted to the moments the code reads:
`(m00, m10, m01)`, translated from OpenCV `contourMoments`. -/
def contourMoments (pts : List IPoint) : ℚ × ℚ × ℚ :=
  match pts.getLast? with
  | none => (0, 0, 0)
  | some pstart => momentsOfAcc (contourAcc pstart pts)

/-- Lines 225-229 (and their copies): the centroid-label block. The label is
drawn only when `m10 != m00 and m01 != m00`; inside that branch Python would
raise `ZeroDivisionError` if `m00` were zero, otherwise the label goes to
`(int(m10/m00), int(m01/m00))`. -/
def centroidLabel (pts : List IPoint) : Except String (Option IPoint) :=
  let m := contourMoments pts
  if m.2.1 ≠ m.1 ∧ m.2.2 ≠ m.1 then
    if m.1 = 0 then Except.error "ZeroDivisionError"
    else Except.ok (some (pyInt (m.2.1 / m.1), pyInt (m.2.2 / m.1)))
  else Except.ok none

example : pointPolygonTest [(0,0),(10,0),(0,10)] (5,4) = 1 := by decide
example : pointPolygonTest [(0,0),(10,0),(0,10)] (5,5) = 0 := by decide
example : pointPolygonTest [(0,0),(10,0),(0,10)] (6,5) = -1 := by decide
example : contourMoments [(0,0),(2,0),(2,2),(0,2)] = (4, 4, 4) := by decide
example : centroidLabel [(0,0),(2,0),(2,2),(0,2)] = Except.ok none := rfl
example : centroidLabel [(0,0),(4,0),(4,4),(0,4)] = Except.ok (some (2,2)) := rfl

/-- The ROI configuration dict parsed from one per-event JSON file, in key
insertion order: the five fixed slot names mapped to vertex lists. -/
abbrev ContourROI : Type := List (String × List IPoint)

/-- The set of JSON files in the config directory, keyed by event name
(`EventStat`, `AlertStranger`, `MonitorVehicle`): `none` models a missing
file, for which `json.load(open(...))` raises `FileNotFoundError`. -/
abbrev ConfigDir : Type := String → Option ContourROI

/-- A Python dict read `m[k]`, on a dict modelled as an insertion-ordered
association list: `none` models a `KeyError`. -/
def dictGet {α β : Type} [DecidableEq α] : List (α × β) → α → Option β
  | [], _ => none
  | p :: rest, k => if p.1 = k then some p.2 else dictGet rest k

/-- `self.eventName = {0:"EventStat", 1:"AlertStranger", 2:"MonitorVehicle"}`
(line 104), as an association list; a failed dict lookup is `none`
(Python `KeyError`). -/
def eventNameDict : List (ℤ × String) :=
  [(0, "EventStat"), (1, "AlertStranger"), (2, "MonitorVehicle")]

/-- `self.ROIColor` (line 107): display colors for the five fixed slots. -/
def ROIColor : List (String × Color) :=
  [("ROI 1", (0,255,0)), ("ROI 2", (255,0,255)), ("ROI 3", (255,255,0)),
   ("ROI 4", (255,0,0)), ("ROI 5", (50,30,70))]

/-- The five fixed region slot names. -/
def roiSlots : List String := ["ROI 1", "ROI 2", "ROI 3", "ROI 4", "ROI 5"]

/-- The mutable state of an `EventManager` instance. -/
structure EMState where
  configPath : String
  contourROI : ContourROI
  colorBlink : ℤ
  eventType : ℤ
deriving DecidableEq, Repr

/-- `EventManager.__init__` (lines 89-107): store the settings, set
`colorBlink = 0` and load the event's JSON; a missing name or file raises
before the object is ever usable. -/
def initEventManager (dir : ConfigDir) (config : String) (eventType : ℤ) :
    Except String EMState :=
  match dictGet eventNameDict eventType with
  | none => Except.error "KeyError"
  | some name =>
    match dir name with
    | none => Except.error "FileNotFoundError"
    | some roi => Except.ok ⟨config, roi, 0, eventType⟩

/-- `EventManager.updateROISettings` (lines 109-120): `self.eventType` is
assigned first (line 119), then the JSON for the new event type is reloaded
into `self.contourROI` (line 120). The returned pair is the object state
after the call together with the exception raised, if any: on a failed
reload the old `contourROI` is still in place. -/
def updateROISettings (dir : ConfigDir) (s : EMState) (eventType : ℤ) :
    EMState × Option String :=
  let s1 : EMState := { s with eventType := eventType }
  match dictGet eventNameDict eventType with
  | none => (s1, some "KeyError")
  | some name =>
    match dir name with
    | none => (s1, some "FileNotFoundError")
    | some roi => ({ s1 with contourROI := roi }, none)

/-- `EventManager.getEventName` (lines 122-131): a plain dict lookup in the
fixed `eventName` dict; unknown event types raise `KeyError`. -/
def getEventName (eventType : ℤ) : Except String String :=
  match dictGet eventNameDict eventType with
  | none => Except.error "KeyError"
  | some name => Except.ok name

/-- Lines 233-235 (and their copies): `colorBlink += 1`, reset to `0` on
reaching `10`. -/
def blinkStep (b : ℤ) : ℤ := if b + 1 = 10 then 0 else b + 1

/-- The `EventStat` detection filter (line 171):
`score > threshold` and `class > -1`. -/
def statFilter (threshold : ℚ) (b : Box) : Bool :=
  decide (threshold < b.score) && decide ((-1 : ℚ) < b.cls)

/-- The `AlertStranger` detection filter (line 276):
`score > threshold` and `class == 0` (person). -/
def strangerFilter (threshold : ℚ) (b : Box) : Bool :=
  decide (threshold < b.score) && decide (b.cls = 0)

/-- The `MonitorVehicle` detection filter (line 377): `score > threshold` and
`class` one of `1` (bicycle), `2` (car), `3` (motorcycle). -/
def vehicleFilter (threshold : ℚ) (b : Box) : Bool :=
  decide (threshold < b.score) &&
    (decide (b.cls = 1) || decide (b.cls = 2) || decide (b.cls = 3))

/-- The fresh `varApp` dict built at the top of each classification method:
all five slots at `0`. -/
def varApp0 : List (String × ℕ) :=
  [("ROI 1", 0), ("ROI 2", 0), ("ROI 3", 0), ("ROI 4", 0), ("ROI 5", 0)]

/-- Assigning to an existing key of a Python dict modelled as an association
list: every entry with that key gets the new value, order preserved. -/
def alistSet (m : List (String × ℕ)) (k : String) (v : ℕ) : List (String × ℕ) :=
  m.map (fun p => if p.1 = k then (p.1, v) else p)

/-- The alert color `(0,0,255)` (red in BGR). -/
def alertColor : Color := (0, 0, 255)

/-- `self.ROIColor[whichROI]` as an `Except`: a dict lookup that raises
`KeyError` for a key outside the five fixed slots. -/
def roiColorE (whichROI : String) : Except String Color :=
  match dictGet ROIColor whichROI with
  | none => Except.error "KeyError"
  | some c => Except.ok c

/-- Lines 205-208 and 218-221: the color used by `findEventStat` for a
region's status text and contour fill: alert exactly when
`colorBlink < 5 and varApp[whichROI] >= vehicleThres`. -/
def statFillColorE (blink vehicleThres : ℤ) (whichROI : String) (count : ℕ) :
    Except String Color :=
  if blink < 5 ∧ vehicleThres ≤ (count : ℤ) then Except.ok alertColor
  else roiColorE whichROI

/-- Lines 307-310: the color of the `AlertStranger` status text
(`colorBlink < 5` alone decides the alert color there). -/
def strangerTextColorE (blink : ℤ) (whichROI : String) : Except String Color :=
  if blink < 5 then Except.ok alertColor else roiColorE whichROI

/-- Lines 318-321: the fill color of an `AlertStranger` region:
alert exactly when `colorBlink < 5 and varApp[whichROI] != 0`. -/
def strangerFillColorE (blink : ℤ) (whichROI : String) (count : ℕ) :
    Except String Color :=
  if blink < 5 ∧ count ≠ 0 then Except.ok alertColor
  else roiColorE whichROI

/-- Lines 427-430: the fill color of a `MonitorVehicle` region:
alert exactly when `colorBlink < 5 and varApp[whichROI] == 0`. -/
def vehicleFillColorE (blink : ℤ) (whichROI : String) (count : ℕ) :
    Except String Color :=
  if blink < 5 ∧ count = 0 then Except.ok alertColor
  else roiColorE whichROI

/-- The inner detection loop (lines 181-198 and their copies): every surviving
detection whose truncated center tests inside or on the region polygon is
appended to `results['boxes']` tagged `indexROI + 1`, and bumps
`varApp[whichROI]` (a `KeyError` if the JSON used a key outside the five
slots). -/
def boxLoop (pts : List IPoint) (whichROI : String) (idx : ℕ) :
    List Box → List (Box × ℕ) → List (String × ℕ) →
    Except String (List (Box × ℕ) × List (String × ℕ))
  | [], results, varApp => Except.ok (results, varApp)
  | b :: rest, results, varApp =>
    if boxInside pts b then
      match dictGet varApp whichROI with
      | none => Except.error "KeyError"
      | some v =>
        boxLoop pts whichROI idx rest (results ++ [(b, idx + 1)])
          (alistSet varApp whichROI (v + 1))
    else boxLoop pts whichROI idx rest results varApp

/-- Lines 201-212: the status-text block of `findEventStat`, entered when the
region count is nonzero. The text color is computed first (lines 205-208, a
possible `KeyError`); `cv2.putText(final_np, ...)` then raises
`UnboundLocalError` when the method was called with `img=None`, because
`final_np` is only bound under `if not img is None` (lines 165-168). -/
def statTextStep (blink vehicleThres : ℤ) (imgPresent : Bool) (whichROI : String)
    (count : ℕ) : Except String Unit :=
  if count ≠ 0 then
    match statFillColorE blink vehicleThres whichROI count with
    | Except.error e => Except.error e
    | Except.ok _ => if imgPresent then Except.ok () else Except.error "UnboundLocalError"
  else Except.ok ()

/-- Lines 305-314: the status-text block of `alertStrangerIntrusion`, entered
when the region count is nonzero; same `UnboundLocalError` behaviour on
`img=None`. -/
def strangerTextStep (blink : ℤ) (imgPresent : Bool) (whichROI : String)
    (count : ℕ) : Except String Unit :=
  if count ≠ 0 then
    match strangerTextColorE blink whichROI with
    | Except.error e => Except.error e
    | Except.ok _ => if imgPresent then Except.ok () else Except.error "UnboundLocalError"
  else Except.ok ()

/-- Lines 407-423: the status-text blocks of `monitorVehicle`. Both the
`count == 0` branch (missing-vehicle alert) and the `count != 0` branch draw
text on `final_np`, so either branch raises `UnboundLocalError` when
`img=None`. -/
def vehicleTextStep (blink : ℤ) (imgPresent : Bool) (whichROI : String)
    (count : ℕ) : Except String Unit :=
  if count = 0 then
    match (if blink < 5 then Except.ok alertColor else roiColorE whichROI) with
    | Except.error e => Except.error e
    | Except.ok _ => if imgPresent then Except.ok () else Except.error "UnboundLocalError"
  else
    match roiColorE whichROI with
    | Except.error e => Except.error e
    | Except.ok _ => if imgPresent then Except.ok () else Except.error "UnboundLocalError"

/-- What the contour-rendering block (lines 215-231 and copies) leaves on the
frame for one region: the fill color passed to `cv2.drawContours` and the
centroid label position, if one was drawn. -/
structure RegionRender where
  name : String
  fillColor : Color
  centroidDrawn : Option IPoint
deriving DecidableEq, Repr

/-- The region loop of `findEventStat` (lines 176-231). `enumerate` counts
every key, active or not; inactive regions (empty vertex list) are skipped
wholesale (line 177). -/
def findEventStatLoop (blink vehicleThres : ℤ) (imgPresent drawContour : Bool)
    (filtered : List Box) :
    ℕ → ContourROI → List (Box × ℕ) → List (String × ℕ) → List RegionRender →
    Except String (List (Box × ℕ) × List (String × ℕ) × List RegionRender)
  | _, [], results, varApp, renders => Except.ok (results, varApp, renders)
  | idx, (whichROI, pts) :: rest, results, varApp, renders =>
    if pts = [] then
      findEventStatLoop blink vehicleThres imgPresent drawContour filtered
        (idx + 1) rest results varApp renders
    else
      match boxLoop pts whichROI idx filtered results varApp with
      | Except.error e => Except.error e
      | Except.ok (results1, varApp1) =>
        match dictGet varApp1 whichROI with
        | none => Except.error "KeyError"
        | some count =>
          match statTextStep blink vehicleThres imgPresent whichROI count with
          | Except.error e => Except.error e
          | Except.ok _ =>
            if imgPresent && drawContour then
              match statFillColorE blink vehicleThres whichROI count with
              | Except.error e => Except.error e
              | Except.ok bColor =>
                match centroidLabel pts with
                | Except.error e => Except.error e
                | Except.ok label =>
                  findEventStatLoop blink vehicleThres imgPresent drawContour filtered
                    (idx + 1) rest results1 varApp1
                    (renders ++ [⟨whichROI, bColor, label⟩])
            else
              findEventStatLoop blink vehicleThres imgPresent drawContour filtered
                (idx + 1) rest results1 varApp1 renders

/-- The region loop of `alertStrangerIntrusion` (lines 281-332). -/
def alertStrangerLoop (blink : ℤ) (imgPresent drawContour : Bool)
    (filtered : List Box) :
    ℕ → ContourROI → List (Box × ℕ) → List (String × ℕ) → List RegionRender →
    Except String (List (Box × ℕ) × List (String × ℕ) × List RegionRender)
  | _, [], results, varApp, renders => Except.ok (results, varApp, renders)
  | idx, (whichROI, pts) :: rest, results, varApp, renders =>
    if pts = [] then
      alertStrangerLoop blink imgPresent drawContour filtered
        (idx + 1) rest results varApp renders
    else
      match boxLoop pts whichROI idx filtered results varApp with
      | Except.error e => Except.error e
      | Except.ok (results1, varApp1) =>
        match dictGet varApp1 whichROI with
        | none => Except.error "KeyError"
        | some count =>
          match strangerTextStep blink imgPresent whichROI count with
          | Except.error e => Except.error e
          | Except.ok _ =>
            if imgPresent && drawContour then
              match strangerFillColorE blink whichROI count with
              | Except.error e => Except.error e
              | Except.ok bColor =>
                match centroidLabel pts with
                | Except.error e => Except.error e
                | Except.ok label =>
                  alertStrangerLoop blink imgPresent drawContour filtered
                    (idx + 1) rest results1 varApp1
                    (renders ++ [⟨whichROI, bColor, label⟩])
            else
              alertStrangerLoop blink imgPresent drawContour filtered
                (idx + 1) rest results1 varApp1 renders

/-- The region loop of `monitorVehicle` (lines 382-440). -/
def monitorVehicleLoop (blink : ℤ) (imgPresent drawContour : Bool)
    (filtered : List Box) :
    ℕ → ContourROI → List (Box × ℕ) → List (String × ℕ) → List RegionRender →
    Except String (List (Box × ℕ) × List (String × ℕ) × List RegionRender)
  | _, [], results, varApp, renders => Except.ok (results, varApp, renders)
  | idx, (whichROI, pts) :: rest, results, varApp, renders =>
    if pts = [] then
      monitorVehicleLoop blink imgPresent drawContour filtered
        (idx + 1) rest results varApp renders
    else
      match boxLoop pts whichROI idx filtered results varApp with
      | Except.error e => Except.error e
      | Except.ok (results1, varApp1) =>
        match dictGet varApp1 whichROI with
        | none => Except.error "KeyError"
        | some count =>
          match vehicleTextStep blink imgPresent whichROI count with
          | Except.error e => Except.error e
          | Except.ok _ =>
            if imgPresent && drawContour then
              match vehicleFillColorE blink whichROI count with
              | Except.error e => Except.error e
              | Except.ok bColor =>
                match centroidLabel pts with
                | Except.error e => Except.error e
                | Except.ok label =>
                  monitorVehicleLoop blink imgPresent drawContour filtered
                    (idx + 1) rest results1 varApp1
                    (renders ++ [⟨whichROI, bColor, label⟩])
            else
              monitorVehicleLoop blink imgPresent drawContour filtered
                (idx + 1) rest results1 varApp1 renders

/-- What one classification call produces: `results['boxes']` (each surviving
detection tagged with the 1-based index of a region it was found in),
`varApp` (the per-region counts) and the rendered regions. -/
abbrev ClassifyValue : Type :=
  List (Box × ℕ) × List (String × ℕ) × List RegionRender

/-- The full observable effect of one classification call: the returned value
or the Python exception raised, together with the object state after the
call (`colorBlink` advances only when lines 233-235 were actually reached). -/
structure MethodOutcome where
  value : Except String ClassifyValue
  state : EMState
deriving Repr

/-- `EventManager.findEventStat` (lines 133-237). The `img` argument is kept
only as present/absent; `alpha` only feeds `cv2.addWeighted` and is dropped.
When `img=None`, `return final_np_1` at line 237 raises `UnboundLocalError`
even if the loop completed. -/
def findEventStat (s : EMState) (np_boxes : List Box) (img : Option Unit)
    (threshold : ℚ) (drawContour : Bool) (vehicleThres : ℤ) : MethodOutcome :=
  let filtered := np_boxes.filter (statFilter threshold)
  match findEventStatLoop s.colorBlink vehicleThres img.isSome drawContour filtered
      0 s.contourROI [] varApp0 [] with
  | Except.error e => ⟨Except.error e, s⟩
  | Except.ok out =>
    let s1 : EMState := { s with colorBlink := blinkStep s.colorBlink }
    match img with
    | some _ => ⟨Except.ok out, s1⟩
    | none => ⟨Except.error "UnboundLocalError", s1⟩

/-- `EventManager.alertStrangerIntrusion` (lines 240-339). -/
def alertStrangerIntrusion (s : EMState) (np_boxes : List Box) (img : Option Unit)
    (threshold : ℚ) (drawContour : Bool) : MethodOutcome :=
  let filtered := np_boxes.filter (strangerFilter threshold)
  match alertStrangerLoop s.colorBlink img.isSome drawContour filtered
      0 s.contourROI [] varApp0 [] with
  | Except.error e => ⟨Except.error e, s⟩
  | Except.ok out =>
    let s1 : EMState := { s with colorBlink := blinkStep s.colorBlink }
    match img with
    | some _ => ⟨Except.ok out, s1⟩
    | none => ⟨Except.error "UnboundLocalError", s1⟩

/-- `EventManager.monitorVehicle` (lines 341-447). -/
def monitorVehicle (s : EMState) (np_boxes : List Box) (img : Option Unit)
    (threshold : ℚ) (drawContour : Bool) : MethodOutcome :=
  let filtered := np_boxes.filter (vehicleFilter threshold)
  match monitorVehicleLoop s.colorBlink img.isSome drawContour filtered
      0 s.contourROI [] varApp0 [] with
  | Except.error e => ⟨Except.error e, s⟩
  | Except.ok out =>
    let s1 : EMState := { s with colorBlink := blinkStep s.colorBlink }
    match img with
    | some _ => ⟨Except.ok out, s1⟩
    | none => ⟨Except.error "UnboundLocalError", s1⟩

/-! ### Characterisation of the loop outputs -/

/-- The number of surviving detections whose truncated center tests inside or
on the region polygon. -/
def regionCount (filtered : List Box) (pts : List IPoint) : ℕ :=
  (filtered.filter (boxInside pts)).length

/-- The `results['boxes']` list produced by the region loop: for each active
region, all matching detections tagged with the region's 1-based index, in
region order then detection order. -/
def expectedResults (filtered : List Box) : ℕ → ContourROI → List (Box × ℕ)
  | _, [] => []
  | idx, (_, pts) :: rest =>
    (if pts = [] then []
     else (filtered.filter (boxInside pts)).map (fun b => (b, idx + 1)))
      ++ expectedResults filtered (idx + 1) rest

/-- The final `varApp` dict: each active region's slot is bumped by its match
count, inactive regions leave the dict untouched. -/
def updVarApp (filtered : List Box) : List (String × ℕ) → ContourROI → List (String × ℕ)
  | varApp, [] => varApp
  | varApp, (name, pts) :: rest =>
    updVarApp filtered
      (if pts = [] then varApp
       else alistSet varApp name ((dictGet varApp name).getD 0 + regionCount filtered pts))
      rest

/-- The display color assigned to a slot (total version of `roiColorE`). -/
def roiColorD (name : String) : Color := (dictGet ROIColor name).getD (0, 0, 0)

/-- The centroid label drawn for a polygon (total version of `centroidLabel`;
the `ZeroDivisionError` branch is unreachable, see `centroidLabel_eq`). -/
def centroidLabelVal (pts : List IPoint) : Option IPoint :=
  let m := contourMoments pts
  if m.2.1 ≠ m.1 ∧ m.2.2 ≠ m.1 then some (pyInt (m.2.1 / m.1), pyInt (m.2.2 / m.1))
  else none

/-- Total version of `statFillColorE` for slot names. -/
def statFillColor (blink vehicleThres : ℤ) (name : String) (count : ℕ) : Color :=
  if blink < 5 ∧ vehicleThres ≤ (count : ℤ) then alertColor else roiColorD name

/-- Total version of `strangerFillColorE` for slot names. -/
def strangerFillColor (blink : ℤ) (name : String) (count : ℕ) : Color :=
  if blink < 5 ∧ count ≠ 0 then alertColor else roiColorD name

/-- Total version of `vehicleFillColorE` for slot names. -/
def vehicleFillColor (blink : ℤ) (name : String) (count : ℕ) : Color :=
  if blink < 5 ∧ count = 0 then alertColor else roiColorD name

/-- The rendered-region list produced by a region loop when a frame is
present and `drawContour` holds, for a given per-region fill-color policy.
The count shown for a region is the accumulated dict value, which for the
fresh `varApp0` and distinct slot names is exactly `regionCount`. -/
def expectedRenders (fill : String → ℕ → Color) (filtered : List Box) :
    List (String × ℕ) → ContourROI → List RegionRender
  | _, [] => []
  | varApp, (name, pts) :: rest =>
    (if pts = [] then []
     else [⟨name, fill name ((dictGet varApp name).getD 0 + regionCount filtered pts),
            centroidLabelVal pts⟩])
      ++ expectedRenders fill filtered
          (if pts = [] then varApp
           else alistSet varApp name ((dictGet varApp name).getD 0 + regionCount filtered pts))
          rest

/-! ### Dictionary lemmas -/

theorem dictGet_alistSet_self (k : String) (w : ℕ) :
    ∀ (m : List (String × ℕ)), (dictGet m k).isSome →
      dictGet (alistSet m k w) k = some w := by
  intro m
  induction m with
  | nil => intro h; simp [dictGet] at h
  | cons p m ih =>
    intro h
    by_cases hpk : p.1 = k
    · simp [alistSet, dictGet, hpk]
    · simp only [alistSet, List.map_cons, if_neg hpk, dictGet, hpk, if_false] at h ⊢
      exact ih h

theorem dictGet_alistSet_other (k k' : String) (w : ℕ) (hkk : k' ≠ k) :
    ∀ (m : List (String × ℕ)), dictGet (alistSet m k w) k' = dictGet m k' := by
  intro m
  induction m with
  | nil => rfl
  | cons p m ih =>
    by_cases hpk : p.1 = k
    · have hne : ¬ p.1 = k' := by rw [hpk]; exact fun hh => hkk hh.symm
      simp only [alistSet, List.map_cons, if_pos hpk, dictGet, if_neg hne]
      exact ih
    · simp only [alistSet, List.map_cons, if_neg hpk, dictGet]
      by_cases hpk' : p.1 = k'
      · simp [hpk']
      · simp only [if_neg hpk']
        exact ih

theorem dictGet_alistSet_isSome (k k' : String) (w : ℕ) :
    ∀ (m : List (String × ℕ)),
      (dictGet (alistSet m k w) k').isSome = (dictGet m k').isSome := by
  intro m
  induction m with
  | nil => rfl
  | cons p m ih =>
    obtain ⟨a, b⟩ := p
    simp only [alistSet, List.map_cons] at ih ⊢
    by_cases hak : a = k
    · subst hak
      by_cases hak' : a = k'
      · subst hak'
        simp [dictGet]
      · simp [dictGet, hak', ih]
    · by_cases hak' : a = k'
      · subst hak'
        simp [dictGet, hak]
      · simp [dictGet, hak, hak', ih]

theorem alistSet_keys (k : String) (w : ℕ) :
    ∀ (m : List (String × ℕ)), (alistSet m k w).map Prod.fst = m.map Prod.fst := by
  intro m
  induction m with
  | nil => rfl
  | cons p m ih =>
    simp only [alistSet, List.map_cons] at ih ⊢
    rw [show ((if p.1 = k then (p.1, w) else p) : String × ℕ).1 = p.1 by split_ifs <;> rfl]
    rw [ih]

theorem alistSet_of_not_mem (k : String) (w : ℕ) :
    ∀ (m : List (String × ℕ)), k ∉ m.map Prod.fst → alistSet m k w = m := by
  intro m
  induction m with
  | nil => intro _; rfl
  | cons p m ih =>
    intro h
    simp only [List.map_cons, List.mem_cons] at h
    push_neg at h
    have h1 : ¬ p.1 = k := Ne.symm h.1
    have h2 := ih h.2
    simp only [alistSet, List.map_cons, if_neg h1] at h2 ⊢
    rw [h2]

theorem alistSet_id (k : String) (v : ℕ) :
    ∀ (m : List (String × ℕ)), dictGet m k = some v →
      (m.map Prod.fst).Nodup → alistSet m k v = m := by
  intro m
  induction m with
  | nil => intro h _; simp [dictGet] at h
  | cons p m ih =>
    intro h hnd
    obtain ⟨a, b⟩ := p
    simp only [List.map_cons, List.nodup_cons] at hnd
    by_cases hak : a = k
    · subst hak
      simp [dictGet] at h
      have hrest : alistSet m a b = m := alistSet_of_not_mem a b m hnd.1
      have hif : ((a, b) : String × ℕ).1 = a := rfl
      subst h
      simp only [alistSet, List.map_cons] at hrest ⊢
      rw [if_pos trivial, hrest]
    · simp only [dictGet, if_neg hak] at h
      have hrest := ih h hnd.2
      simp only [alistSet, List.map_cons, if_neg hak] at hrest ⊢
      rw [hrest]

theorem alistSet_alistSet (k : String) (a b : ℕ) :
    ∀ (m : List (String × ℕ)), alistSet (alistSet m k a) k b = alistSet m k b := by
  intro m
  induction m with
  | nil => rfl
  | cons p m ih =>
    by_cases hpk : p.1 = k
    · simp only [alistSet, List.map_cons, if_pos hpk]
      simp only [alistSet] at ih
      rw [ih]
    · simp only [alistSet, List.map_cons, if_neg hpk]
      simp only [alistSet] at ih
      rw [ih]

theorem dictGet_varApp0_of_slot (n : String) (h : n ∈ roiSlots) :
    dictGet varApp0 n = some 0 := by
  simp only [roiSlots, List.mem_cons, List.not_mem_nil, or_false] at h
  rcases h with rfl | rfl | rfl | rfl | rfl <;> rfl

theorem varApp0_keys_nodup : (varApp0.map Prod.fst).Nodup := by decide

theorem roiColorE_of_slot (n : String) (h : n ∈ roiSlots) :
    roiColorE n = Except.ok (roiColorD n) := by
  simp only [roiSlots, List.mem_cons, List.not_mem_nil, or_false] at h
  rcases h with rfl | rfl | rfl | rfl | rfl <;> rfl

theorem roiColorD_ne_alert (n : String) (h : n ∈ roiSlots) :
    roiColorD n ≠ alertColor := by
  simp only [roiSlots, List.mem_cons, List.not_mem_nil, or_false] at h
  rcases h with rfl | rfl | rfl | rfl | rfl <;> decide

/-! ### The centroid guard never divides by zero -/

theorem momentsOfAcc_m00_zero (a : ℤ × ℤ × ℤ) (h : (momentsOfAcc a).1 = 0) :
    momentsOfAcc a = (0, 0, 0) := by
  unfold momentsOfAcc at h ⊢
  split_ifs at h ⊢ with h1 h2
  · rfl
  · exfalso
    simp only at h
    rw [div_eq_zero_iff] at h
    rcases h with h | h
    · exact h1 (by exact_mod_cast h)
    · norm_num at h
  · exfalso
    simp only [neg_eq_zero] at h
    rw [div_eq_zero_iff] at h
    rcases h with h | h
    · exact h1 (by exact_mod_cast h)
    · norm_num at h

theorem contourMoments_m00_zero (pts : List IPoint)
    (h : (contourMoments pts).1 = 0) : contourMoments pts = (0, 0, 0) := by
  unfold contourMoments at h ⊢
  cases hl : pts.getLast? with
  | none => rfl
  | some pstart =>
    rw [hl] at h
    exact momentsOfAcc_m00_zero _ h

/-- The `ZeroDivisionError` branch of the centroid block is unreachable:
whenever the guard `m10 != m00 and m01 != m00` passes, `m00` is nonzero,
because OpenCV zeroes every moment of a zero-area contour. -/
theorem centroidLabel_eq (pts : List IPoint) :
    centroidLabel pts = Except.ok (centroidLabelVal pts) := by
  unfold centroidLabel centroidLabelVal
  by_cases hg : (contourMoments pts).2.1 ≠ (contourMoments pts).1 ∧
      (contourMoments pts).2.2 ≠ (contourMoments pts).1
  · rw [if_pos hg, if_pos hg, if_neg]
    intro h0
    have hz := contourMoments_m00_zero pts h0
    rw [hz] at hg
    exact hg.1 rfl
  · rw [if_neg hg, if_neg hg]

/-! ### The per-region helper steps never raise on a slot name with a frame -/

theorem statFillColorE_of_slot (blink vehicleThres : ℤ) (n : String) (c : ℕ)
    (h : n ∈ roiSlots) :
    statFillColorE blink vehicleThres n c
      = Except.ok (statFillColor blink vehicleThres n c) := by
  unfold statFillColorE statFillColor
  split_ifs
  · rfl
  · exact roiColorE_of_slot n h

theorem strangerFillColorE_of_slot (blink : ℤ) (n : String) (c : ℕ)
    (h : n ∈ roiSlots) :
    strangerFillColorE blink n c = Except.ok (strangerFillColor blink n c) := by
  unfold strangerFillColorE strangerFillColor
  split_ifs
  · rfl
  · exact roiColorE_of_slot n h

theorem vehicleFillColorE_of_slot (blink : ℤ) (n : String) (c : ℕ)
    (h : n ∈ roiSlots) :
    vehicleFillColorE blink n c = Except.ok (vehicleFillColor blink n c) := by
  unfold vehicleFillColorE vehicleFillColor
  split_ifs
  · rfl
  · exact roiColorE_of_slot n h

theorem statTextStep_ok (blink vehicleThres : ℤ) (n : String) (c : ℕ)
    (h : n ∈ roiSlots) :
    statTextStep blink vehicleThres true n c = Except.ok () := by
  unfold statTextStep
  rw [statFillColorE_of_slot blink vehicleThres n c h]
  by_cases hc : c ≠ 0
  · rw [if_pos hc]
    rfl
  · rw [if_neg hc]

theorem strangerTextStep_ok (blink : ℤ) (n : String) (c : ℕ)
    (h : n ∈ roiSlots) :
    strangerTextStep blink true n c = Except.ok () := by
  unfold strangerTextStep strangerTextColorE
  by_cases hc : c ≠ 0
  · rw [if_pos hc]
    by_cases hb : blink < 5
    · rw [if_pos hb]
      rfl
    · rw [if_neg hb, roiColorE_of_slot n h]
      rfl
  · rw [if_neg hc]

theorem vehicleTextStep_ok (blink : ℤ) (n : String) (c : ℕ)
    (h : n ∈ roiSlots) :
    vehicleTextStep blink true n c = Except.ok () := by
  unfold vehicleTextStep
  by_cases hc : c = 0
  · rw [if_pos hc]
    by_cases hb : blink < 5
    · rw [if_pos hb]
      rfl
    · rw [if_neg hb, roiColorE_of_slot n h]
      rfl
  · rw [if_neg hc, roiColorE_of_slot n h]
    rfl

/-! ### Running the loops -/

theorem boxLoop_run (pts : List IPoint) (whichROI : String) (idx : ℕ) :
    ∀ (boxes : List Box) (results : List (Box × ℕ)) (varApp : List (String × ℕ)) (v : ℕ),
      dictGet varApp whichROI = some v →
      (varApp.map Prod.fst).Nodup →
      boxLoop pts whichROI idx boxes results varApp
        = Except.ok
            (results ++ (boxes.filter (boxInside pts)).map (fun b => (b, idx + 1)),
             alistSet varApp whichROI (v + (boxes.filter (boxInside pts)).length)) := by
  intro boxes
  induction boxes with
  | nil =>
    intro results varApp v hget hnd
    simp only [boxLoop, List.filter_nil, List.map_nil, List.append_nil, List.length_nil,
      Nat.add_zero]
    rw [alistSet_id whichROI v varApp hget hnd]
  | cons b rest ih =>
    intro results varApp v hget hnd
    by_cases hb : boxInside pts b = true
    · simp only [boxLoop, hb, if_true, hget]
      rw [ih (results ++ [(b, idx + 1)]) (alistSet varApp whichROI (v + 1)) (v + 1)
          (dictGet_alistSet_self whichROI (v + 1) varApp (by rw [hget]; rfl))
          (by rw [alistSet_keys]; exact hnd)]
      rw [alistSet_alistSet]
      have harith : v + 1 + (rest.filter (boxInside pts)).length
          = v + ((rest.filter (boxInside pts)).length + 1) := by omega
      rw [harith]
      simp [List.filter_cons, hb, List.append_assoc]
    · simp only [boxLoop, hb, if_false, Bool.false_eq_true]
      rw [ih results varApp v hget hnd]
      simp [List.filter_cons, hb]

theorem findEventStatLoop_run (blink vehicleThres : ℤ) (dc : Bool) (filtered : List Box)
    (regions : ContourROI) :
    ∀ (idx : ℕ) (results : List (Box × ℕ)) (varApp : List (String × ℕ))
      (renders : List RegionRender),
      (∀ p ∈ regions, p.1 ∈ roiSlots) →
      (∀ n ∈ roiSlots, (dictGet varApp n).isSome) →
      (varApp.map Prod.fst).Nodup →
      findEventStatLoop blink vehicleThres true dc filtered idx regions results varApp renders
        = Except.ok (results ++ expectedResults filtered idx regions,
            updVarApp filtered varApp regions,
            renders ++ (if dc then
              expectedRenders (statFillColor blink vehicleThres) filtered varApp regions
              else [])) := by
  induction regions with
  | nil =>
    intro idx results varApp renders _ _ _
    simp [findEventStatLoop, expectedResults, updVarApp, expectedRenders]
  | cons q rest ih =>
    intro idx results varApp renders hnames hv hnd
    obtain ⟨name, pts⟩ := q
    have hslot : name ∈ roiSlots := hnames (name, pts) (by simp)
    have hnames1 : ∀ p ∈ rest, p.1 ∈ roiSlots := fun p hp => hnames p (by simp [hp])
    by_cases hpts : pts = []
    · subst hpts
      have hstep : findEventStatLoop blink vehicleThres true dc filtered idx
            ((name, []) :: rest) results varApp renders
          = findEventStatLoop blink vehicleThres true dc filtered (idx + 1) rest
              results varApp renders := by
        simp [findEventStatLoop]
      rw [hstep, ih (idx + 1) results varApp renders hnames1 hv hnd]
      simp [expectedResults, updVarApp, expectedRenders]
    · obtain ⟨v, hveq⟩ := Option.isSome_iff_exists.mp (hv name hslot)
      have hnd1 : ((alistSet varApp name
            (v + (filtered.filter (boxInside pts)).length)).map Prod.fst).Nodup := by
        rw [alistSet_keys]; exact hnd
      have hv1 : ∀ n ∈ roiSlots,
          (dictGet (alistSet varApp name
            (v + (filtered.filter (boxInside pts)).length)) n).isSome := by
        intro n hn
        rw [dictGet_alistSet_isSome]
        exact hv n hn
      have hcount : dictGet (alistSet varApp name
            (v + (filtered.filter (boxInside pts)).length)) name
          = some (v + (filtered.filter (boxInside pts)).length) :=
        dictGet_alistSet_self name _ varApp (by rw [hveq]; rfl)
      simp only [findEventStatLoop, if_neg hpts]
      rw [boxLoop_run pts name idx filtered results varApp v hveq hnd]
      dsimp only
      rw [hcount]
      dsimp only
      rw [statTextStep_ok blink vehicleThres name _ hslot]
      dsimp only
      cases dc with
      | false =>
        simp only [Bool.true_and, Bool.false_eq_true, if_false]
        rw [ih (idx + 1) _ _ _ hnames1 hv1 hnd1]
        simp only [expectedResults, updVarApp, if_neg hpts, hveq,
          Option.getD_some, regionCount, Bool.false_eq_true, if_false]
        simp [List.append_assoc]
      | true =>
        simp only [Bool.true_and, eq_self_iff_true, if_true]
        rw [statFillColorE_of_slot blink vehicleThres name _ hslot, centroidLabel_eq pts]
        dsimp only
        rw [ih (idx + 1) _ _ _ hnames1 hv1 hnd1]
        simp only [expectedResults, updVarApp, expectedRenders, if_neg hpts, hveq,
          Option.getD_some, regionCount, eq_self_iff_true, if_true]
        simp [List.append_assoc]

theorem alertStrangerLoop_run (blink : ℤ) (dc : Bool) (filtered : List Box)
    (regions : ContourROI) :
    ∀ (idx : ℕ) (results : List (Box × ℕ)) (varApp : List (String × ℕ))
      (renders : List RegionRender),
      (∀ p ∈ regions, p.1 ∈ roiSlots) →
      (∀ n ∈ roiSlots, (dictGet varApp n).isSome) →
      (varApp.map Prod.fst).Nodup →
      alertStrangerLoop blink true dc filtered idx regions results varApp renders
        = Except.ok (results ++ expectedResults filtered idx regions,
            updVarApp filtered varApp regions,
            renders ++ (if dc then
              expectedRenders (strangerFillColor blink) filtered varApp regions
              else [])) := by
  induction regions with
  | nil =>
    intro idx results varApp renders _ _ _
    simp [alertStrangerLoop, expectedResults, updVarApp, expectedRenders]
  | cons q rest ih =>
    intro idx results varApp renders hnames hv hnd
    obtain ⟨name, pts⟩ := q
    have hslot : name ∈ roiSlots := hnames (name, pts) (by simp)
    have hnames1 : ∀ p ∈ rest, p.1 ∈ roiSlots := fun p hp => hnames p (by simp [hp])
    by_cases hpts : pts = []
    · subst hpts
      have hstep : alertStrangerLoop blink true dc filtered idx
            ((name, []) :: rest) results varApp renders
          = alertStrangerLoop blink true dc filtered (idx + 1) rest
              results varApp renders := by
        simp [alertStrangerLoop]
      rw [hstep, ih (idx + 1) results varApp renders hnames1 hv hnd]
      simp [expectedResults, updVarApp, expectedRenders]
    · obtain ⟨v, hveq⟩ := Option.isSome_iff_exists.mp (hv name hslot)
      have hnd1 : ((alistSet varApp name
            (v + (filtered.filter (boxInside pts)).length)).map Prod.fst).Nodup := by
        rw [alistSet_keys]; exact hnd
      have hv1 : ∀ n ∈ roiSlots,
          (dictGet (alistSet varApp name
            (v + (filtered.filter (boxInside pts)).length)) n).isSome := by
        intro n hn
        rw [dictGet_alistSet_isSome]
        exact hv n hn
      have hcount : dictGet (alistSet varApp name
            (v + (filtered.filter (boxInside pts)).length)) name
          = some (v + (filtered.filter (boxInside pts)).length) :=
        dictGet_alistSet_self name _ varApp (by rw [hveq]; rfl)
      simp only [alertStrangerLoop, if_neg hpts]
      rw [boxLoop_run pts name idx filtered results varApp v hveq hnd]
      dsimp only
      rw [hcount]
      dsimp only
      rw [strangerTextStep_ok blink name _ hslot]
      dsimp only
      cases dc with
      | false =>
        simp only [Bool.true_and, Bool.false_eq_true, if_false]
        rw [ih (idx + 1) _ _ _ hnames1 hv1 hnd1]
        simp only [expectedResults, updVarApp, if_neg hpts, hveq,
          Option.getD_some, regionCount, Bool.false_eq_true, if_false]
        simp [List.append_assoc]
      | true =>
        simp only [Bool.true_and, eq_self_iff_true, if_true]
        rw [strangerFillColorE_of_slot blink name _ hslot, centroidLabel_eq pts]
        dsimp only
        rw [ih (idx + 1) _ _ _ hnames1 hv1 hnd1]
        simp only [expectedResults, updVarApp, expectedRenders, if_neg hpts, hveq,
          Option.getD_some, regionCount, eq_self_iff_true, if_true]
        simp [List.append_assoc]

theorem monitorVehicleLoop_run (blink : ℤ) (dc : Bool) (filtered : List Box)
    (regions : ContourROI) :
    ∀ (idx : ℕ) (results : List (Box × ℕ)) (varApp : List (String × ℕ))
      (renders : List RegionRender),
      (∀ p ∈ regions, p.1 ∈ roiSlots) →
      (∀ n ∈ roiSlots, (dictGet varApp n).isSome) →
      (varApp.map Prod.fst).Nodup →
      monitorVehicleLoop blink true dc filtered idx regions results varApp renders
        = Except.ok (results ++ expectedResults filtered idx regions,
            updVarApp filtered varApp regions,
            renders ++ (if dc then
              expectedRenders (vehicleFillColor blink) filtered varApp regions
              else [])) := by
  induction regions with
  | nil =>
    intro idx results varApp renders _ _ _
    simp [monitorVehicleLoop, expectedResults, updVarApp, expectedRenders]
  | cons q rest ih =>
    intro idx results varApp renders hnames hv hnd
    obtain ⟨name, pts⟩ := q
    have hslot : name ∈ roiSlots := hnames (name, pts) (by simp)
    have hnames1 : ∀ p ∈ rest, p.1 ∈ roiSlots := fun p hp => hnames p (by simp [hp])
    by_cases hpts : pts = []
    · subst hpts
      have hstep : monitorVehicleLoop blink true dc filtered idx
            ((name, []) :: rest) results varApp renders
          = monitorVehicleLoop blink true dc filtered (idx + 1) rest
              results varApp renders := by
        simp [monitorVehicleLoop]
      rw [hstep, ih (idx + 1) results varApp renders hnames1 hv hnd]
      simp [expectedResults, updVarApp, expectedRenders]
    · obtain ⟨v, hveq⟩ := Option.isSome_iff_exists.mp (hv name hslot)
      have hnd1 : ((alistSet varApp name
            (v + (filtered.filter (boxInside pts)).length)).map Prod.fst).Nodup := by
        rw [alistSet_keys]; exact hnd
      have hv1 : ∀ n ∈ roiSlots,
          (dictGet (alistSet varApp name
            (v + (filtered.filter (boxInside pts)).length)) n).isSome := by
        intro n hn
        rw [dictGet_alistSet_isSome]
        exact hv n hn
      have hcount : dictGet (alistSet varApp name
            (v + (filtered.filter (boxInside pts)).length)) name
          = some (v + (filtered.filter (boxInside pts)).length) :=
        dictGet_alistSet_self name _ varApp (by rw [hveq]; rfl)
      simp only [monitorVehicleLoop, if_neg hpts]
      rw [boxLoop_run pts name idx filtered results varApp v hveq hnd]
      dsimp only
      rw [hcount]
      dsimp only
      rw [vehicleTextStep_ok blink name _ hslot]
      dsimp only
      cases dc with
      | false =>
        simp only [Bool.true_and, Bool.false_eq_true, if_false]
        rw [ih (idx + 1) _ _ _ hnames1 hv1 hnd1]
        simp only [expectedResults, updVarApp, if_neg hpts, hveq,
          Option.getD_some, regionCount, Bool.false_eq_true, if_false]
        simp [List.append_assoc]
      | true =>
        simp only [Bool.true_and, eq_self_iff_true, if_true]
        rw [vehicleFillColorE_of_slot blink name _ hslot, centroidLabel_eq pts]
        dsimp only
        rw [ih (idx + 1) _ _ _ hnames1 hv1 hnd1]
        simp only [expectedResults, updVarApp, expectedRenders, if_neg hpts, hveq,
          Option.getD_some, regionCount, eq_self_iff_true, if_true]
        simp [List.append_assoc]

theorem varApp0_isSome (n : String) (h : n ∈ roiSlots) : (dictGet varApp0 n).isSome := by
  rw [dictGet_varApp0_of_slot n h]; rfl

/-- `findEventStat`, fully run: with a frame supplied and the configured
region names among the five slots, the call returns normally and its three
outputs are characterised; `colorBlink` advances by one step. -/
theorem findEventStat_run (s : EMState) (np_boxes : List Box) (threshold : ℚ)
    (dc : Bool) (vehicleThres : ℤ)
    (hnames : ∀ p ∈ s.contourROI, p.1 ∈ roiSlots) :
    findEventStat s np_boxes (some ()) threshold dc vehicleThres
      = ⟨Except.ok (expectedResults (np_boxes.filter (statFilter threshold)) 0 s.contourROI,
          updVarApp (np_boxes.filter (statFilter threshold)) varApp0 s.contourROI,
          if dc then expectedRenders (statFillColor s.colorBlink vehicleThres)
            (np_boxes.filter (statFilter threshold)) varApp0 s.contourROI else []),
         { s with colorBlink := blinkStep s.colorBlink }⟩ := by
  unfold findEventStat
  simp only [Option.isSome_some]
  rw [findEventStatLoop_run s.colorBlink vehicleThres dc _ s.contourROI 0 [] varApp0 []
      hnames varApp0_isSome varApp0_keys_nodup]
  rfl

/-- `alertStrangerIntrusion`, fully run (same hypotheses as
`findEventStat_run`). -/
theorem alertStrangerIntrusion_run (s : EMState) (np_boxes : List Box) (threshold : ℚ)
    (dc : Bool)
    (hnames : ∀ p ∈ s.contourROI, p.1 ∈ roiSlots) :
    alertStrangerIntrusion s np_boxes (some ()) threshold dc
      = ⟨Except.ok (expectedResults (np_boxes.filter (strangerFilter threshold)) 0 s.contourROI,
          updVarApp (np_boxes.filter (strangerFilter threshold)) varApp0 s.contourROI,
          if dc then expectedRenders (strangerFillColor s.colorBlink)
            (np_boxes.filter (strangerFilter threshold)) varApp0 s.contourROI else []),
         { s with colorBlink := blinkStep s.colorBlink }⟩ := by
  unfold alertStrangerIntrusion
  simp only [Option.isSome_some]
  rw [alertStrangerLoop_run s.colorBlink dc _ s.contourROI 0 [] varApp0 []
      hnames varApp0_isSome varApp0_keys_nodup]
  rfl

/-- `monitorVehicle`, fully run (same hypotheses as `findEventStat_run`). -/
theorem monitorVehicle_run (s : EMState) (np_boxes : List Box) (threshold : ℚ)
    (dc : Bool)
    (hnames : ∀ p ∈ s.contourROI, p.1 ∈ roiSlots) :
    monitorVehicle s np_boxes (some ()) threshold dc
      = ⟨Except.ok (expectedResults (np_boxes.filter (vehicleFilter threshold)) 0 s.contourROI,
          updVarApp (np_boxes.filter (vehicleFilter threshold)) varApp0 s.contourROI,
          if dc then expectedRenders (vehicleFillColor s.colorBlink)
            (np_boxes.filter (vehicleFilter threshold)) varApp0 s.contourROI else []),
         { s with colorBlink := blinkStep s.colorBlink }⟩ := by
  unfold monitorVehicle
  simp only [Option.isSome_some]
  rw [monitorVehicleLoop_run s.colorBlink dc _ s.contourROI 0 [] varApp0 []
      hnames varApp0_isSome varApp0_keys_nodup]
  rfl

/-! ### Reading counts, tags and renders off the characterisation -/

theorem updVarApp_get_not_mem (filtered : List Box) (name : String) :
    ∀ (regions : ContourROI) (varApp : List (String × ℕ)),
      name ∉ regions.map Prod.fst →
      dictGet (updVarApp filtered varApp regions) name = dictGet varApp name := by
  intro regions
  induction regions with
  | nil => intro varApp _; rfl
  | cons q rest ih =>
    intro varApp h
    obtain ⟨n2, pts2⟩ := q
    simp only [List.map_cons, List.mem_cons] at h
    push_neg at h
    by_cases hpts : pts2 = []
    · simp only [updVarApp, if_pos hpts]
      exact ih varApp h.2
    · simp only [updVarApp, if_neg hpts]
      rw [ih _ h.2, dictGet_alistSet_other n2 name _ h.1]

theorem updVarApp_get_active (filtered : List Box) (name : String) (pts : List IPoint) :
    ∀ (regions : ContourROI) (varApp : List (String × ℕ)) (v : ℕ),
      (regions.map Prod.fst).Nodup →
      (name, pts) ∈ regions →
      pts ≠ [] →
      dictGet varApp name = some v →
      dictGet (updVarApp filtered varApp regions) name
        = some (v + regionCount filtered pts) := by
  intro regions
  induction regions with
  | nil => intro varApp v _ hmem _ _; simp at hmem
  | cons q rest ih =>
    intro varApp v hnd hmem hpts hget
    obtain ⟨n2, pts2⟩ := q
    simp only [List.map_cons, List.nodup_cons] at hnd
    rcases List.mem_cons.mp hmem with heq | hmem2
    · cases heq
      simp only [updVarApp, if_neg hpts]
      rw [updVarApp_get_not_mem filtered name rest _ hnd.1]
      rw [hget]
      simp only [Option.getD_some]
      exact dictGet_alistSet_self name _ varApp (by rw [hget]; rfl)
    · have hname : name ∈ rest.map Prod.fst :=
        List.mem_map.mpr ⟨(name, pts), hmem2, rfl⟩
      have hne : name ≠ n2 := fun hcontra => hnd.1 (hcontra ▸ hname)
      by_cases hpts2 : pts2 = []
      · simp only [updVarApp, if_pos hpts2]
        exact ih varApp v hnd.2 hmem2 hpts hget
      · simp only [updVarApp, if_neg hpts2]
        exact ih _ v hnd.2 hmem2 hpts
          (by rw [dictGet_alistSet_other n2 name _ hne]; exact hget)

theorem updVarApp_get_inactive (filtered : List Box) (name : String) :
    ∀ (regions : ContourROI) (varApp : List (String × ℕ)),
      (regions.map Prod.fst).Nodup →
      (name, ([] : List IPoint)) ∈ regions →
      dictGet (updVarApp filtered varApp regions) name = dictGet varApp name := by
  intro regions
  induction regions with
  | nil => intro varApp _ hmem; simp at hmem
  | cons q rest ih =>
    intro varApp hnd hmem
    obtain ⟨n2, pts2⟩ := q
    simp only [List.map_cons, List.nodup_cons] at hnd
    rcases List.mem_cons.mp hmem with heq | hmem2
    · cases heq
      simp only [updVarApp, if_pos rfl]
      exact updVarApp_get_not_mem filtered name rest varApp hnd.1
    · have hname : name ∈ rest.map Prod.fst :=
        List.mem_map.mpr ⟨(name, []), hmem2, rfl⟩
      have hne : name ≠ n2 := fun hcontra => hnd.1 (hcontra ▸ hname)
      by_cases hpts2 : pts2 = []
      · simp only [updVarApp, if_pos hpts2]
        exact ih varApp hnd.2 hmem2
      · simp only [updVarApp, if_neg hpts2]
        rw [ih _ hnd.2 hmem2, dictGet_alistSet_other n2 name _ hne]

theorem expectedResults_mem (filtered : List Box) :
    ∀ (regions : ContourROI) (idx : ℕ) (p : Box × ℕ),
      p ∈ expectedResults filtered idx regions →
      ∃ j name pts, regions.get? j = some (name, pts) ∧ p.2 = idx + j + 1 ∧ pts ≠ [] ∧
        boxInside pts p.1 = true ∧ p.1 ∈ filtered := by
  intro regions
  induction regions with
  | nil => intro idx p hp; simp [expectedResults] at hp
  | cons q rest ih =>
    intro idx p hp
    obtain ⟨n2, pts2⟩ := q
    simp only [expectedResults, List.mem_append] at hp
    rcases hp with hp | hp
    · by_cases hpts : pts2 = []
      · rw [if_pos hpts] at hp
        simp at hp
      · rw [if_neg hpts] at hp
        simp only [List.mem_map] at hp
        obtain ⟨b, hbmem, hbeq⟩ := hp
        obtain ⟨hbm, hbi⟩ := List.mem_filter.mp hbmem
        refine ⟨0, n2, pts2, rfl, ?_, hpts, ?_, ?_⟩
        · rw [← hbeq]
        · rw [← hbeq]; exact hbi
        · rw [← hbeq]; exact hbm
    · obtain ⟨j, name, pts, hj, htag, hpts, hin, hf⟩ := ih (idx + 1) p hp
      refine ⟨j + 1, name, pts, by simpa using hj, by omega, hpts, hin, hf⟩

theorem expectedRenders_mem_active (fill : String → ℕ → Color) (filtered : List Box)
    (name : String) (pts : List IPoint) :
    ∀ (regions : ContourROI) (varApp : List (String × ℕ)),
      (regions.map Prod.fst).Nodup →
      (name, pts) ∈ regions →
      pts ≠ [] →
      dictGet varApp name = some 0 →
      (⟨name, fill name (regionCount filtered pts), centroidLabelVal pts⟩ : RegionRender)
        ∈ expectedRenders fill filtered varApp regions := by
  intro regions
  induction regions with
  | nil => intro varApp _ hmem _ _; simp at hmem
  | cons q rest ih =>
    intro varApp hnd hmem hpts hget
    obtain ⟨n2, pts2⟩ := q
    simp only [List.map_cons, List.nodup_cons] at hnd
    rcases List.mem_cons.mp hmem with heq | hmem2
    · cases heq
      simp only [expectedRenders, if_neg hpts]
      apply List.mem_append_left
      rw [hget]
      simp
    · have hname : name ∈ rest.map Prod.fst :=
        List.mem_map.mpr ⟨(name, pts), hmem2, rfl⟩
      have hne : name ≠ n2 := fun hcontra => hnd.1 (hcontra ▸ hname)
      by_cases hpts2 : pts2 = []
      · simp only [expectedRenders, if_pos hpts2]
        apply List.mem_append_right
        exact ih varApp hnd.2 hmem2 hpts hget
      · simp only [expectedRenders, if_neg hpts2]
        apply List.mem_append_right
        exact ih _ hnd.2 hmem2 hpts
          (by rw [dictGet_alistSet_other n2 name _ hne]; exact hget)

theorem expectedRenders_shape (fill : String → ℕ → Color) (filtered : List Box) :
    ∀ (regions : ContourROI) (varApp : List (String × ℕ)) (r : RegionRender),
      r ∈ expectedRenders fill filtered varApp regions →
      ∃ pts, (r.name, pts) ∈ regions ∧ pts ≠ [] := by
  intro regions
  induction regions with
  | nil => intro varApp r hr; simp [expectedRenders] at hr
  | cons q rest ih =>
    intro varApp r hr
    obtain ⟨n2, pts2⟩ := q
    simp only [expectedRenders, List.mem_append] at hr
    rcases hr with hr | hr
    · by_cases hpts : pts2 = []
      · rw [if_pos hpts] at hr
        simp at hr
      · rw [if_neg hpts] at hr
        simp only [List.mem_singleton] at hr
        subst hr
        exact ⟨pts2, List.mem_cons_self _ _, hpts⟩
    · obtain ⟨pts, hmem, hpts⟩ := ih _ r hr
      exact ⟨pts, List.mem_cons_of_mem _ hmem, hpts⟩

theorem nodup_keys_eq {α β : Type} [DecidableEq α] :
    ∀ (l : List (α × β)) (k : α) (a b : β),
      (l.map Prod.fst).Nodup → (k, a) ∈ l → (k, b) ∈ l → a = b := by
  intro l
  induction l with
  | nil => intro k a b _ ha _; simp at ha
  | cons p rest ih =>
    intro k a b hnd ha hb
    simp only [List.map_cons, List.nodup_cons] at hnd
    rcases List.mem_cons.mp ha with heqa | hma
    · rcases List.mem_cons.mp hb with heqb | hmb
      · rw [← heqa] at heqb
        injection heqb with _ h2
        exact h2.symm
      · exfalso
        apply hnd.1
        rw [← heqa]
        exact List.mem_map.mpr ⟨(k, b), hmb, rfl⟩
    · rcases List.mem_cons.mp hb with heqb | hmb
      · exfalso
        apply hnd.1
        rw [← heqb]
        exact List.mem_map.mpr ⟨(k, a), hma, rfl⟩
      · exact ih k a b hnd.2 hma hmb

/-! ### Claim theorems -/

/-- C6: after `updateROISettings(B)` the stored region configuration equals
exactly the content of B's configuration resource — a wholesale replacement
with no partial merge — so every subsequent classification (which reads only
`contourROI` from the state) uses B's region set and nothing of the previous
event type's regions survives in the state. -/
theorem C6_wholesale_reload (dir : ConfigDir) (s : EMState) (B : ℤ) (nB : String)
    (cfgB : ContourROI) (h1 : dictGet eventNameDict B = some nB)
    (h2 : dir nB = some cfgB) :
    updateROISettings dir s B
      = ({ s with eventType := B, contourROI := cfgB }, none) := by
  unfold updateROISettings
  rw [h1]
  dsimp only
  rw [h2]

/-- C6 witness: a concrete switch from `EventStat` (0) to `MonitorVehicle` (2)
replaces the stored configuration wholesale. -/
theorem C6_wholesale_reload_witness :
    updateROISettings
        (fun n => if n = "MonitorVehicle" then some [("ROI 1", [(1, 2)])] else none)
        ⟨"config", [("ROI 1", [(0, 0), (9, 0), (0, 9)])], 3, 0⟩ 2
      = (⟨"config", [("ROI 1", [(1, 2)])], 3, 2⟩, none) :=
  C6_wholesale_reload
    (fun n => if n = "MonitorVehicle" then some [("ROI 1", [(1, 2)])] else none)
    ⟨"config", [("ROI 1", [(0, 0), (9, 0), (0, 9)])], 3, 0⟩ 2 "MonitorVehicle"
    [("ROI 1", [(1, 2)])] (by rfl) (by rfl)

/-- C7: loading the configuration for an event type — at construction or via
`updateROISettings` — fails with an error when the backing resource is
missing; no empty/default configuration is substituted, and on a failed
reload the previously held `contourROI` is kept (only `eventType` was
already reassigned at line 119). -/
theorem C7_missing_config_fatal :
    (∀ (dir : ConfigDir) (config : String) (B : ℤ) (nB : String),
      dictGet eventNameDict B = some nB → dir nB = none →
      initEventManager dir config B = Except.error "FileNotFoundError") ∧
    (∀ (dir : ConfigDir) (s : EMState) (B : ℤ) (nB : String),
      dictGet eventNameDict B = some nB → dir nB = none →
      updateROISettings dir s B = ({ s with eventType := B }, some "FileNotFoundError")) := by
  constructor
  · intro dir config B nB h1 h2
    unfold initEventManager
    rw [h1]
    dsimp only
    rw [h2]
  · intro dir s B nB h1 h2
    unfold updateROISettings
    rw [h1]
    dsimp only
    rw [h2]

/-- C7 witness: with an empty config directory, constructing for event 0 and
reloading for event 1 both fail, and the reload keeps the old regions. -/
theorem C7_missing_config_fatal_witness :
    initEventManager (fun _ => none) "config" 0 = Except.error "FileNotFoundError" ∧
    updateROISettings (fun _ => none) ⟨"config", [("ROI 1", [(5, 5)])], 2, 0⟩ 1
      = (⟨"config", [("ROI 1", [(5, 5)])], 2, 1⟩, some "FileNotFoundError") :=
  ⟨C7_missing_config_fatal.1 (fun _ => none) "config" 0 "EventStat" (by rfl) (by rfl),
   C7_missing_config_fatal.2 (fun _ => none) ⟨"config", [("ROI 1", [(5, 5)])], 2, 0⟩ 1
     "AlertStranger" (by rfl) (by rfl)⟩

/-- C9: `getEventName` is a pure total mapping on the three known event types
(`0 ↦ EventStat`, `1 ↦ AlertStranger`, `2 ↦ MonitorVehicle`) and raises
`KeyError` on every other integer, never silently returning a default. -/
theorem C9_event_name_total_on_known :
    getEventName 0 = Except.ok "EventStat" ∧
    getEventName 1 = Except.ok "AlertStranger" ∧
    getEventName 2 = Except.ok "MonitorVehicle" ∧
    ∀ et : ℤ, et ≠ 0 → et ≠ 1 → et ≠ 2 → getEventName et = Except.error "KeyError" := by
  refine ⟨rfl, rfl, rfl, ?_⟩
  intro et h0 h1 h2
  have e0 : ¬ ((0 : ℤ) = et) := fun h => h0 h.symm
  have e1 : ¬ ((1 : ℤ) = et) := fun h => h1 h.symm
  have e2 : ¬ ((2 : ℤ) = et) := fun h => h2 h.symm
  unfold getEventName eventNameDict
  simp [dictGet, e0, e1, e2]

/-- C9 witness: the unknown event type `7` raises `KeyError`. -/
theorem C9_event_name_witness :
    getEventName 7 = Except.error "KeyError" :=
  C9_event_name_total_on_known.2.2.2 7 (by decide) (by decide) (by decide)

/-- C10: calling any of the three classification methods with `img=None` (the
declared default) raises an exception before returning: with a frame absent
either a `putText` on the unbound `final_np` raises mid-loop, or the final
`return final_np_1` raises, so a non-None image is an unstated precondition. -/
theorem C10_none_img_raises (s : EMState) (np_boxes : List Box) (threshold : ℚ)
    (dc : Bool) (vehicleThres : ℤ) :
    (∃ e, (findEventStat s np_boxes none threshold dc vehicleThres).value
      = Except.error e) ∧
    (∃ e, (alertStrangerIntrusion s np_boxes none threshold dc).value
      = Except.error e) ∧
    (∃ e, (monitorVehicle s np_boxes none threshold dc).value = Except.error e) := by
  refine ⟨?_, ?_, ?_⟩
  · unfold findEventStat
    simp only [Option.isSome_none]
    cases h : findEventStatLoop s.colorBlink vehicleThres false dc
        (np_boxes.filter (statFilter threshold)) 0 s.contourROI [] varApp0 [] with
    | error e => exact ⟨e, rfl⟩
    | ok out => exact ⟨"UnboundLocalError", rfl⟩
  · unfold alertStrangerIntrusion
    simp only [Option.isSome_none]
    cases h : alertStrangerLoop s.colorBlink false dc
        (np_boxes.filter (strangerFilter threshold)) 0 s.contourROI [] varApp0 [] with
    | error e => exact ⟨e, rfl⟩
    | ok out => exact ⟨"UnboundLocalError", rfl⟩
  · unfold monitorVehicle
    simp only [Option.isSome_none]
    cases h : monitorVehicleLoop s.colorBlink false dc
        (np_boxes.filter (vehicleFilter threshold)) 0 s.contourROI [] varApp0 [] with
    | error e => exact ⟨e, rfl⟩
    | ok out => exact ⟨"UnboundLocalError", rfl⟩

theorem filter_idem {α : Type} (p : α → Bool) (l : List α) :
    (l.filter p).filter p = l.filter p := by
  rw [List.filter_filter]
  simp

/-- C2: each classification method applies its event-type filter before any
region matching: `findEventStat` keeps exactly score > threshold and
class > -1, `alertStrangerIntrusion` keeps exactly score > threshold and
class = 0 (person), `monitorVehicle` keeps exactly score > threshold and
class ∈ {1 (bicycle), 2 (car), 3 (motorcycle)}; a call behaves identically
on the raw list and on its filtered list, so filtered-out detections
contribute nothing to counts, tagged results, or rendering. -/
theorem C2_event_type_filters (s : EMState) (np_boxes : List Box) (img : Option Unit)
    (threshold : ℚ) (dc : Bool) (vehicleThres : ℤ) :
    (findEventStat s np_boxes img threshold dc vehicleThres
      = findEventStat s (np_boxes.filter (statFilter threshold)) img threshold dc
          vehicleThres) ∧
    (∀ b : Box, b ∈ np_boxes.filter (statFilter threshold)
      ↔ b ∈ np_boxes ∧ threshold < b.score ∧ (-1 : ℚ) < b.cls) ∧
    (alertStrangerIntrusion s np_boxes img threshold dc
      = alertStrangerIntrusion s (np_boxes.filter (strangerFilter threshold)) img
          threshold dc) ∧
    (∀ b : Box, b ∈ np_boxes.filter (strangerFilter threshold)
      ↔ b ∈ np_boxes ∧ threshold < b.score ∧ b.cls = 0) ∧
    (monitorVehicle s np_boxes img threshold dc
      = monitorVehicle s (np_boxes.filter (vehicleFilter threshold)) img threshold dc) ∧
    (∀ b : Box, b ∈ np_boxes.filter (vehicleFilter threshold)
      ↔ b ∈ np_boxes ∧ threshold < b.score ∧ (b.cls = 1 ∨ b.cls = 2 ∨ b.cls = 3)) := by
  refine ⟨?_, ?_, ?_, ?_, ?_, ?_⟩
  · unfold findEventStat
    rw [filter_idem]
  · intro b
    simp [statFilter, List.mem_filter, and_assoc]
  · unfold alertStrangerIntrusion
    rw [filter_idem]
  · intro b
    simp [strangerFilter, List.mem_filter, and_assoc]
  · unfold monitorVehicle
    rw [filter_idem]
  · intro b
    simp [vehicleFilter, List.mem_filter, and_assoc, or_assoc]

/-- C4 counterexample: a `monitorVehicle` call with `img=None` and one active
region raises (`putText` on the unbound `final_np`) before lines 443-445 run,
so `colorBlink` does not advance: the claim's "regardless of image presence"
fails. -/
theorem C4_counterexample :
    (monitorVehicle ⟨"config", [("ROI 1", [(0, 0), (2, 0), (2, 2), (0, 2)])], 0, 2⟩
        [] none (1 / 2) true).state.colorBlink
      ≠ ((⟨"config", [("ROI 1", [(0, 0), (2, 0), (2, 2), (0, 2)])], 0, 2⟩ :
          EMState).colorBlink + 1) % 10 := by
  decide

/-- C4 (amended): every classification call that completes without raising —
in particular every call with a frame supplied and the configured region
names among the five slots — advances `colorBlink` by exactly 1 modulo 10,
regardless of event type, detections, or region activity; the step is
`(b + 1) % 10` on `[0, 9]`, stays in `[0, 9]`, and returns to the start
after exactly 10 steps. -/
theorem C4_blink_advance :
    (∀ (s : EMState) (np_boxes : List Box) (threshold : ℚ) (dc : Bool)
        (vehicleThres : ℤ),
      (∀ p ∈ s.contourROI, p.1 ∈ roiSlots) →
      (findEventStat s np_boxes (some ()) threshold dc vehicleThres).state.colorBlink
          = blinkStep s.colorBlink ∧
      (alertStrangerIntrusion s np_boxes (some ()) threshold dc).state.colorBlink
          = blinkStep s.colorBlink ∧
      (monitorVehicle s np_boxes (some ()) threshold dc).state.colorBlink
          = blinkStep s.colorBlink) ∧
    (∀ b : ℤ, 0 ≤ b → b < 10 → blinkStep b = (b + 1) % 10) ∧
    (∀ b : ℤ, 0 ≤ b → b < 10 → 0 ≤ blinkStep b ∧ blinkStep b < 10) ∧
    (∀ b : ℤ, 0 ≤ b → b < 10 → blinkStep^[10] b = b) := by
  refine ⟨?_, ?_, ?_, ?_⟩
  · intro s np_boxes threshold dc vehicleThres hnames
    rw [findEventStat_run s np_boxes threshold dc vehicleThres hnames,
      alertStrangerIntrusion_run s np_boxes threshold dc hnames,
      monitorVehicle_run s np_boxes threshold dc hnames]
    exact ⟨rfl, rfl, rfl⟩
  · intro b h0 h1
    unfold blinkStep
    interval_cases b <;> decide
  · intro b h0 h1
    unfold blinkStep
    interval_cases b <;> decide
  · intro b h0 h1
    interval_cases b <;> decide

/-- C4 witness: on a concrete state with `colorBlink = 3` and a valid
one-region configuration, `findEventStat` leaves `colorBlink = 4`, and ten
blink steps from 3 return to 3. -/
theorem C4_blink_advance_witness :
    (findEventStat ⟨"config", [("ROI 1", [(0, 0), (2, 0), (2, 2), (0, 2)])], 3, 0⟩
        [] (some ()) (1 / 2) true 5).state.colorBlink
      = blinkStep 3 ∧ blinkStep^[10] 3 = 3 :=
  ⟨(C4_blink_advance.1 ⟨"config", [("ROI 1", [(0, 0), (2, 0), (2, 2), (0, 2)])], 3, 0⟩
      [] (1 / 2) true 5 (by decide)).1,
   C4_blink_advance.2.2.2 3 (by decide) (by decide)⟩

/-- C1 counterexample: the code hands `cv2.pointPolygonTest` the
integer-truncated center `(int(cx), int(cy))`, not the exact center. For the
triangle `[(0,0),(10,0),(0,10)]` and the detection with bbox
`(5,5)-(6,6)` the exact center `(5.5, 5.5)` lies strictly outside the
polygon, yet the truncated center `(5,5)` lies on the hypotenuse, so
`findEventStat` counts the detection: the claimed "matches iff the
bounding-box center lies inside or on the boundary" is false. -/
theorem C1_counterexample :
    specCenterInside [(0, 0), (10, 0), (0, 10)] ⟨2, 1, 5, 5, 6, 6⟩ = false ∧
    ((findEventStat ⟨"config", [("ROI 1", [(0, 0), (10, 0), (0, 10)])], 0, 0⟩
        [⟨2, 1, 5, 5, 6, 6⟩] (some ()) (1 / 2) true 5).value.toOption.map
      (fun out => (out.1, dictGet out.2.1 "ROI 1")))
      = some ([(⟨2, 1, 5, 5, 6, 6⟩, 1)], some 1) := by
  constructor
  · decide
  · rfl

/-- C1 (amended): for every classification call with a frame supplied and a
well-formed configuration (names among the five slots, no duplicate names),
and every detection surviving the event-type filter, the detection is
counted in a region's per-region count exactly once per matching region,
where a detection matches a region iff its integer-truncated bounding-box
center `(int(xmin + (xmax-xmin)/2), int(ymin + (ymax-ymin)/2))` lies
strictly inside or exactly on the region's polygon boundary (`boxInside`);
a detection overlapping several regions is tagged and counted once in each,
as `expectedResults` lists each region's matches independently. -/
theorem C1_per_region_counting (s : EMState) (np_boxes : List Box) (threshold : ℚ)
    (dc : Bool) (vehicleThres : ℤ)
    (hnames : ∀ p ∈ s.contourROI, p.1 ∈ roiSlots)
    (hnd : (s.contourROI.map Prod.fst).Nodup) :
    ((findEventStat s np_boxes (some ()) threshold dc vehicleThres).value
        = Except.ok (expectedResults (np_boxes.filter (statFilter threshold)) 0 s.contourROI,
            updVarApp (np_boxes.filter (statFilter threshold)) varApp0 s.contourROI,
            if dc then expectedRenders (statFillColor s.colorBlink vehicleThres)
              (np_boxes.filter (statFilter threshold)) varApp0 s.contourROI else []) ∧
      ∀ name pts, (name, pts) ∈ s.contourROI → pts ≠ [] →
        dictGet (updVarApp (np_boxes.filter (statFilter threshold)) varApp0 s.contourROI)
            name
          = some (((np_boxes.filter (statFilter threshold)).filter
              (boxInside pts)).length)) ∧
    ((alertStrangerIntrusion s np_boxes (some ()) threshold dc).value
        = Except.ok (expectedResults (np_boxes.filter (strangerFilter threshold)) 0 s.contourROI,
            updVarApp (np_boxes.filter (strangerFilter threshold)) varApp0 s.contourROI,
            if dc then expectedRenders (strangerFillColor s.colorBlink)
              (np_boxes.filter (strangerFilter threshold)) varApp0 s.contourROI else []) ∧
      ∀ name pts, (name, pts) ∈ s.contourROI → pts ≠ [] →
        dictGet (updVarApp (np_boxes.filter (strangerFilter threshold)) varApp0 s.contourROI)
            name
          = some (((np_boxes.filter (strangerFilter threshold)).filter
              (boxInside pts)).length)) ∧
    ((monitorVehicle s np_boxes (some ()) threshold dc).value
        = Except.ok (expectedResults (np_boxes.filter (vehicleFilter threshold)) 0 s.contourROI,
            updVarApp (np_boxes.filter (vehicleFilter threshold)) varApp0 s.contourROI,
            if dc then expectedRenders (vehicleFillColor s.colorBlink)
              (np_boxes.filter (vehicleFilter threshold)) varApp0 s.contourROI else []) ∧
      ∀ name pts, (name, pts) ∈ s.contourROI → pts ≠ [] →
        dictGet (updVarApp (np_boxes.filter (vehicleFilter threshold)) varApp0 s.contourROI)
            name
          = some (((np_boxes.filter (vehicleFilter threshold)).filter
              (boxInside pts)).length)) := by
  have hcount : ∀ (filtered : List Box) (name : String) (pts : List IPoint),
      (name, pts) ∈ s.contourROI → pts ≠ [] →
      dictGet (updVarApp filtered varApp0 s.contourROI) name
        = some ((filtered.filter (boxInside pts)).length) := by
    intro filtered name pts hmem hpts
    have hslot : name ∈ roiSlots := hnames (name, pts) hmem
    have := updVarApp_get_active filtered name pts s.contourROI varApp0 0 hnd hmem hpts
      (dictGet_varApp0_of_slot name hslot)
    rw [this]
    simp [regionCount]
  refine ⟨⟨?_, hcount _⟩, ⟨?_, hcount _⟩, ⟨?_, hcount _⟩⟩
  · rw [findEventStat_run s np_boxes threshold dc vehicleThres hnames]
  · rw [alertStrangerIntrusion_run s np_boxes threshold dc hnames]
  · rw [monitorVehicle_run s np_boxes threshold dc hnames]

/-- C1 witness: the spec's own scenario — region `ROI 1` the square
`(0,0)-(100,100)`, a car detection with bbox `(10,10)-(50,50)`, score 0.9,
`MonitorVehicle`, threshold 0.5 — yields `perRegionCount["ROI 1"] = 1`. -/
theorem C1_per_region_counting_witness :
    dictGet (updVarApp ([⟨2, 9/10, 10, 10, 50, 50⟩].filter (vehicleFilter (1/2)))
        varApp0 [("ROI 1", [(0, 0), (100, 0), (100, 100), (0, 100)])]) "ROI 1"
      = some ((([⟨2, 9/10, 10, 10, 50, 50⟩].filter (vehicleFilter (1/2))).filter
          (boxInside [(0, 0), (100, 0), (100, 100), (0, 100)])).length) :=
  (C1_per_region_counting
      ⟨"config", [("ROI 1", [(0, 0), (100, 0), (100, 100), (0, 100)])], 0, 2⟩
      [⟨2, 9/10, 10, 10, 50, 50⟩] (1/2) true 5 (by decide) (by decide)).2.2.2
    "ROI 1" [(0, 0), (100, 0), (100, 100), (0, 100)] (by decide) (by decide)

theorem statFillColor_alert_iff (blink vt : ℤ) (n : String) (c : ℕ)
    (h : n ∈ roiSlots) :
    (statFillColor blink vt n c = alertColor ↔ (blink < 5 ∧ vt ≤ (c : ℤ))) ∧
    (¬ (blink < 5 ∧ vt ≤ (c : ℤ)) → statFillColor blink vt n c = roiColorD n) := by
  unfold statFillColor
  by_cases hc : blink < 5 ∧ vt ≤ (c : ℤ)
  · rw [if_pos hc]
    exact ⟨⟨fun _ => hc, fun _ => rfl⟩, fun h2 => absurd hc h2⟩
  · rw [if_neg hc]
    exact ⟨⟨fun he => absurd he (roiColorD_ne_alert n h), fun h2 => absurd h2 hc⟩,
      fun _ => rfl⟩

theorem strangerFillColor_alert_iff (blink : ℤ) (n : String) (c : ℕ)
    (h : n ∈ roiSlots) :
    (strangerFillColor blink n c = alertColor ↔ (blink < 5 ∧ 0 < c)) ∧
    (¬ (blink < 5 ∧ 0 < c) → strangerFillColor blink n c = roiColorD n) := by
  unfold strangerFillColor
  have hiff : (blink < 5 ∧ c ≠ 0) ↔ (blink < 5 ∧ 0 < c) := by
    constructor
    · rintro ⟨hb, hcne⟩; exact ⟨hb, Nat.pos_of_ne_zero hcne⟩
    · rintro ⟨hb, hcp⟩; exact ⟨hb, Nat.pos_iff_ne_zero.mp hcp⟩
  by_cases hc : blink < 5 ∧ 0 < c
  · rw [if_pos (hiff.mpr hc)]
    exact ⟨⟨fun _ => hc, fun _ => rfl⟩, fun h2 => absurd hc h2⟩
  · rw [if_neg (fun hcontra => hc (hiff.mp hcontra))]
    exact ⟨⟨fun he => absurd he (roiColorD_ne_alert n h), fun h2 => absurd h2 hc⟩,
      fun _ => rfl⟩

theorem vehicleFillColor_alert_iff (blink : ℤ) (n : String) (c : ℕ)
    (h : n ∈ roiSlots) :
    (vehicleFillColor blink n c = alertColor ↔ (blink < 5 ∧ c = 0)) ∧
    (¬ (blink < 5 ∧ c = 0) → vehicleFillColor blink n c = roiColorD n) := by
  unfold vehicleFillColor
  by_cases hc : blink < 5 ∧ c = 0
  · rw [if_pos hc]
    exact ⟨⟨fun _ => hc, fun _ => rfl⟩, fun h2 => absurd hc h2⟩
  · rw [if_neg hc]
    exact ⟨⟨fun he => absurd he (roiColorD_ne_alert n h), fun h2 => absurd h2 hc⟩,
      fun _ => rfl⟩

/-- C3: with a frame supplied and `drawContour=True`, every active region is
drawn with the fill color of its event's policy, and that color is the alert
color `(0,0,255)` exactly when, per event: `findEventStat` — the region
count is at least the caller-supplied `vehicleThres` and `colorBlink < 5`;
`alertStrangerIntrusion` — the count is positive and `colorBlink < 5`;
`monitorVehicle` — the count is zero and `colorBlink < 5`; otherwise the
region is drawn in its assigned display color. -/
theorem C3_alert_coloring (s : EMState) (np_boxes : List Box) (threshold : ℚ)
    (vehicleThres : ℤ)
    (hnames : ∀ p ∈ s.contourROI, p.1 ∈ roiSlots)
    (hnd : (s.contourROI.map Prod.fst).Nodup) :
    ((findEventStat s np_boxes (some ()) threshold true vehicleThres).value
        = Except.ok (expectedResults (np_boxes.filter (statFilter threshold)) 0 s.contourROI,
            updVarApp (np_boxes.filter (statFilter threshold)) varApp0 s.contourROI,
            expectedRenders (statFillColor s.colorBlink vehicleThres)
              (np_boxes.filter (statFilter threshold)) varApp0 s.contourROI) ∧
      ∀ name pts, (name, pts) ∈ s.contourROI → pts ≠ [] →
        (⟨name, statFillColor s.colorBlink vehicleThres name
            (regionCount (np_boxes.filter (statFilter threshold)) pts),
          centroidLabelVal pts⟩ : RegionRender)
          ∈ expectedRenders (statFillColor s.colorBlink vehicleThres)
              (np_boxes.filter (statFilter threshold)) varApp0 s.contourROI ∧
        (statFillColor s.colorBlink vehicleThres name
            (regionCount (np_boxes.filter (statFilter threshold)) pts) = alertColor
          ↔ (s.colorBlink < 5 ∧ vehicleThres
              ≤ (regionCount (np_boxes.filter (statFilter threshold)) pts : ℤ))) ∧
        (¬ (s.colorBlink < 5 ∧ vehicleThres
              ≤ (regionCount (np_boxes.filter (statFilter threshold)) pts : ℤ)) →
          statFillColor s.colorBlink vehicleThres name
            (regionCount (np_boxes.filter (statFilter threshold)) pts)
            = roiColorD name)) ∧
    ((alertStrangerIntrusion s np_boxes (some ()) threshold true).value
        = Except.ok (expectedResults (np_boxes.filter (strangerFilter threshold)) 0 s.contourROI,
            updVarApp (np_boxes.filter (strangerFilter threshold)) varApp0 s.contourROI,
            expectedRenders (strangerFillColor s.colorBlink)
              (np_boxes.filter (strangerFilter threshold)) varApp0 s.contourROI) ∧
      ∀ name pts, (name, pts) ∈ s.contourROI → pts ≠ [] →
        (⟨name, strangerFillColor s.colorBlink name
            (regionCount (np_boxes.filter (strangerFilter threshold)) pts),
          centroidLabelVal pts⟩ : RegionRender)
          ∈ expectedRenders (strangerFillColor s.colorBlink)
              (np_boxes.filter (strangerFilter threshold)) varApp0 s.contourROI ∧
        (strangerFillColor s.colorBlink name
            (regionCount (np_boxes.filter (strangerFilter threshold)) pts) = alertColor
          ↔ (s.colorBlink < 5
              ∧ 0 < regionCount (np_boxes.filter (strangerFilter threshold)) pts)) ∧
        (¬ (s.colorBlink < 5
              ∧ 0 < regionCount (np_boxes.filter (strangerFilter threshold)) pts) →
          strangerFillColor s.colorBlink name
            (regionCount (np_boxes.filter (strangerFilter threshold)) pts)
            = roiColorD name)) ∧
    ((monitorVehicle s np_boxes (some ()) threshold true).value
        = Except.ok (expectedResults (np_boxes.filter (vehicleFilter threshold)) 0 s.contourROI,
            updVarApp (np_boxes.filter (vehicleFilter threshold)) varApp0 s.contourROI,
            expectedRenders (vehicleFillColor s.colorBlink)
              (np_boxes.filter (vehicleFilter threshold)) varApp0 s.contourROI) ∧
      ∀ name pts, (name, pts) ∈ s.contourROI → pts ≠ [] →
        (⟨name, vehicleFillColor s.colorBlink name
            (regionCount (np_boxes.filter (vehicleFilter threshold)) pts),
          centroidLabelVal pts⟩ : RegionRender)
          ∈ expectedRenders (vehicleFillColor s.colorBlink)
              (np_boxes.filter (vehicleFilter threshold)) varApp0 s.contourROI ∧
        (vehicleFillColor s.colorBlink name
            (regionCount (np_boxes.filter (vehicleFilter threshold)) pts) = alertColor
          ↔ (s.colorBlink < 5
              ∧ regionCount (np_boxes.filter (vehicleFilter threshold)) pts = 0)) ∧
        (¬ (s.colorBlink < 5
              ∧ regionCount (np_boxes.filter (vehicleFilter threshold)) pts = 0) →
          vehicleFillColor s.colorBlink name
            (regionCount (np_boxes.filter (vehicleFilter threshold)) pts)
            = roiColorD name)) := by
  refine ⟨⟨?_, ?_⟩, ⟨?_, ?_⟩, ⟨?_, ?_⟩⟩
  · rw [findEventStat_run s np_boxes threshold true vehicleThres hnames]
    rfl
  · intro name pts hmem hpts
    have hslot : name ∈ roiSlots := hnames (name, pts) hmem
    refine ⟨expectedRenders_mem_active _ _ name pts s.contourROI varApp0 hnd hmem hpts
        (dictGet_varApp0_of_slot name hslot), ?_, ?_⟩
    · exact (statFillColor_alert_iff s.colorBlink vehicleThres name _ hslot).1
    · exact (statFillColor_alert_iff s.colorBlink vehicleThres name _ hslot).2
  · rw [alertStrangerIntrusion_run s np_boxes threshold true hnames]
    rfl
  · intro name pts hmem hpts
    have hslot : name ∈ roiSlots := hnames (name, pts) hmem
    refine ⟨expectedRenders_mem_active _ _ name pts s.contourROI varApp0 hnd hmem hpts
        (dictGet_varApp0_of_slot name hslot), ?_, ?_⟩
    · exact (strangerFillColor_alert_iff s.colorBlink name _ hslot).1
    · exact (strangerFillColor_alert_iff s.colorBlink name _ hslot).2
  · rw [monitorVehicle_run s np_boxes threshold true hnames]
    rfl
  · intro name pts hmem hpts
    have hslot : name ∈ roiSlots := hnames (name, pts) hmem
    refine ⟨expectedRenders_mem_active _ _ name pts s.contourROI varApp0 hnd hmem hpts
        (dictGet_varApp0_of_slot name hslot), ?_, ?_⟩
    · exact (vehicleFillColor_alert_iff s.colorBlink name _ hslot).1
    · exact (vehicleFillColor_alert_iff s.colorBlink name _ hslot).2

/-- C3 witness: the spec's §8 scenario — `MonitorVehicle`, a car inside
`ROI 1`, `blinkPhase = 0` — takes the vehicle-present branch: the fill color
is the region's display color, not the alert color. -/
theorem C3_alert_coloring_witness :
    (⟨"ROI 1", vehicleFillColor 0 "ROI 1"
        (regionCount ([⟨2, 9/10, 10, 10, 50, 50⟩].filter (vehicleFilter (1/2)))
          [(0, 0), (100, 0), (100, 100), (0, 100)]),
      centroidLabelVal [(0, 0), (100, 0), (100, 100), (0, 100)]⟩ : RegionRender)
      ∈ expectedRenders (vehicleFillColor 0)
          ([⟨2, 9/10, 10, 10, 50, 50⟩].filter (vehicleFilter (1/2))) varApp0
          [("ROI 1", [(0, 0), (100, 0), (100, 100), (0, 100)])] ∧
    ¬ ((0 : ℤ) < 5 ∧ regionCount ([⟨2, 9/10, 10, 10, 50, 50⟩].filter (vehicleFilter (1/2)))
        [(0, 0), (100, 0), (100, 100), (0, 100)] = 0) ∧
    vehicleFillColor 0 "ROI 1"
        (regionCount ([⟨2, 9/10, 10, 10, 50, 50⟩].filter (vehicleFilter (1/2)))
          [(0, 0), (100, 0), (100, 100), (0, 100)])
      = roiColorD "ROI 1" := by
  have base := (C3_alert_coloring
      ⟨"config", [("ROI 1", [(0, 0), (100, 0), (100, 100), (0, 100)])], 0, 2⟩
      [⟨2, 9/10, 10, 10, 50, 50⟩] (1/2) 5 (by decide) (by decide)).2.2.2
      "ROI 1" [(0, 0), (100, 0), (100, 100), (0, 100)] (by decide) (by decide)
  have hcond : ¬ ((0 : ℤ) < 5 ∧ regionCount
      ([⟨2, 9/10, 10, 10, 50, 50⟩].filter (vehicleFilter (1/2)))
      [(0, 0), (100, 0), (100, 100), (0, 100)] = 0) := by decide
  exact ⟨base.1, hcond, base.2.2 hcond⟩

/-- C5: the code's centroid-label guard is `m10 != m00 and m01 != m00`
(line 226 and copies), not `m00 != 0`. For the non-degenerate square
`(0,0)-(2,2)` the moments are `(4,4,4)`: `m00 = 4 ≠ 0`, yet the guard fails
and the rendered region carries no centroid label — contradicting the claim
that the label is skipped exactly for degenerate (zero-area) polygons. (The
no-division-by-zero part does hold: `centroidLabel` never errors, see
`centroidLabel_eq`, because OpenCV zeroes all moments of a zero-area
contour.) -/
theorem C5_label_skipped_nondegenerate :
    (contourMoments [(0, 0), (2, 0), (2, 2), (0, 2)]).1 = 4 ∧
    centroidLabel [(0, 0), (2, 0), (2, 2), (0, 2)] = Except.ok none ∧
    ((findEventStat ⟨"config", [("ROI 1", [(0, 0), (2, 0), (2, 2), (0, 2)])], 0, 0⟩
        [] (some ()) (1 / 2) true 5).value.toOption.map (fun out => out.2.2))
      = some [⟨"ROI 1", (0, 255, 0), none⟩] := by
  refine ⟨by decide, rfl, rfl⟩

/-- C8: a region configured with an empty vertex list is skipped entirely by
all three classification methods: its count stays `0`, no tagged detection
carries its 1-based index, and it is never rendered. -/
theorem C8_inactive_region_neutral (s : EMState) (np_boxes : List Box) (threshold : ℚ)
    (vehicleThres : ℤ) (i : ℕ) (name : String)
    (hnames : ∀ p ∈ s.contourROI, p.1 ∈ roiSlots)
    (hnd : (s.contourROI.map Prod.fst).Nodup)
    (hslotQ : s.contourROI.get? i = some (name, [])) :
    ((findEventStat s np_boxes (some ()) threshold true vehicleThres).value
        = Except.ok (expectedResults (np_boxes.filter (statFilter threshold)) 0 s.contourROI,
            updVarApp (np_boxes.filter (statFilter threshold)) varApp0 s.contourROI,
            expectedRenders (statFillColor s.colorBlink vehicleThres)
              (np_boxes.filter (statFilter threshold)) varApp0 s.contourROI) ∧
      dictGet (updVarApp (np_boxes.filter (statFilter threshold)) varApp0 s.contourROI) name
          = some 0 ∧
      (∀ p ∈ expectedResults (np_boxes.filter (statFilter threshold)) 0 s.contourROI,
        p.2 ≠ i + 1) ∧
      (∀ r ∈ expectedRenders (statFillColor s.colorBlink vehicleThres)
          (np_boxes.filter (statFilter threshold)) varApp0 s.contourROI,
        r.name ≠ name)) ∧
    ((alertStrangerIntrusion s np_boxes (some ()) threshold true).value
        = Except.ok (expectedResults (np_boxes.filter (strangerFilter threshold)) 0 s.contourROI,
            updVarApp (np_boxes.filter (strangerFilter threshold)) varApp0 s.contourROI,
            expectedRenders (strangerFillColor s.colorBlink)
              (np_boxes.filter (strangerFilter threshold)) varApp0 s.contourROI) ∧
      dictGet (updVarApp (np_boxes.filter (strangerFilter threshold)) varApp0 s.contourROI)
          name = some 0 ∧
      (∀ p ∈ expectedResults (np_boxes.filter (strangerFilter threshold)) 0 s.contourROI,
        p.2 ≠ i + 1) ∧
      (∀ r ∈ expectedRenders (strangerFillColor s.colorBlink)
          (np_boxes.filter (strangerFilter threshold)) varApp0 s.contourROI,
        r.name ≠ name)) ∧
    ((monitorVehicle s np_boxes (some ()) threshold true).value
        = Except.ok (expectedResults (np_boxes.filter (vehicleFilter threshold)) 0 s.contourROI,
            updVarApp (np_boxes.filter (vehicleFilter threshold)) varApp0 s.contourROI,
            expectedRenders (vehicleFillColor s.colorBlink)
              (np_boxes.filter (vehicleFilter threshold)) varApp0 s.contourROI) ∧
      dictGet (updVarApp (np_boxes.filter (vehicleFilter threshold)) varApp0 s.contourROI)
          name = some 0 ∧
      (∀ p ∈ expectedResults (np_boxes.filter (vehicleFilter threshold)) 0 s.contourROI,
        p.2 ≠ i + 1) ∧
      (∀ r ∈ expectedRenders (vehicleFillColor s.colorBlink)
          (np_boxes.filter (vehicleFilter threshold)) varApp0 s.contourROI,
        r.name ≠ name)) := by
  have hmem : (name, ([] : List IPoint)) ∈ s.contourROI := List.get?_mem hslotQ
  have hslot : name ∈ roiSlots := hnames _ hmem
  have haux : ∀ (filtered : List Box) (fill : String → ℕ → Color),
      dictGet (updVarApp filtered varApp0 s.contourROI) name = some 0 ∧
      (∀ p ∈ expectedResults filtered 0 s.contourROI, p.2 ≠ i + 1) ∧
      (∀ r ∈ expectedRenders fill filtered varApp0 s.contourROI, r.name ≠ name) := by
    intro filtered fill
    refine ⟨?_, ?_, ?_⟩
    · rw [updVarApp_get_inactive filtered name s.contourROI varApp0 hnd hmem]
      exact dictGet_varApp0_of_slot name hslot
    · intro p hp hcontra
      obtain ⟨j, n2, pts2, hj, htag, hpts2, _, _⟩ :=
        expectedResults_mem filtered s.contourROI 0 p hp
      have hji : j = i := by omega
      subst hji
      rw [hslotQ] at hj
      injection hj with hj2
      injection hj2 with ha hb
      exact hpts2 hb.symm
    · intro r hr hcontra
      obtain ⟨pts2, hmem2, hpts2⟩ := expectedRenders_shape fill filtered s.contourROI varApp0 r hr
      rw [hcontra] at hmem2
      exact hpts2 (nodup_keys_eq s.contourROI name pts2 [] hnd hmem2 hmem)
  refine ⟨⟨?_, (haux _ (statFillColor s.colorBlink vehicleThres)).1,
      (haux _ (statFillColor s.colorBlink vehicleThres)).2.1,
      (haux _ (statFillColor s.colorBlink vehicleThres)).2.2⟩,
    ⟨?_, (haux _ (strangerFillColor s.colorBlink)).1,
      (haux _ (strangerFillColor s.colorBlink)).2.1,
      (haux _ (strangerFillColor s.colorBlink)).2.2⟩,
    ⟨?_, (haux _ (vehicleFillColor s.colorBlink)).1,
      (haux _ (vehicleFillColor s.colorBlink)).2.1,
      (haux _ (vehicleFillColor s.colorBlink)).2.2⟩⟩
  · rw [findEventStat_run s np_boxes threshold true vehicleThres hnames]
    rfl
  · rw [alertStrangerIntrusion_run s np_boxes threshold true hnames]
    rfl
  · rw [monitorVehicle_run s np_boxes threshold true hnames]
    rfl

/-- C8 witness: with `ROI 1` inactive and `ROI 2` a square containing the
detection, `ROI 1`'s count stays `0` in `findEventStat`. -/
theorem C8_inactive_region_neutral_witness :
    dictGet (updVarApp ([⟨2, 1, 10, 10, 50, 50⟩].filter (statFilter (1/2))) varApp0
        [("ROI 1", []), ("ROI 2", [(0, 0), (100, 0), (100, 100), (0, 100)])]) "ROI 1"
      = some 0 :=
  (C8_inactive_region_neutral
      ⟨"config", [("ROI 1", []), ("ROI 2", [(0, 0), (100, 0), (100, 100), (0, 100)])], 0, 0⟩
      [⟨2, 1, 10, 10, 50, 50⟩] (1/2) 5 0 "ROI 1"
      (by decide) (by decide) (by decide)).1.2.1
